import Mathlib

/-! DSI backlight: level scaling, power states and binned low-power modes.

A shallow embedding of `msm/dsi/dsi_backlight.c`.

Machine integers are mathematical integers with the reductions of the C
types written out: a `u32` is a `Nat` below `2 ^ 32`, an `int` is an `Int`
in `[-2 ^ 31, 2 ^ 31)`, a conversion between the two is a reduction modulo
`2 ^ 32` (the kernel is built with wrapping signed arithmetic).  The fields
of `struct dsi_backlight_config` that the driver fills with `read_u32` are
`u32`; `bl_actual` is compared with and assigned from `u32` levels.

The state word is the 32-bit `props.state` of the backlight device: bit 1 is
`BL_CORE_FBBLANK`, bit 31 is `BL_STATE_LP`, bit 30 is `BL_STATE_LP2`.  The
three masks are `int` constants.  An `unsigned long` is 64 bits wide, as on
the arm64 target of the driver: an `int` operand of an `unsigned long`
operation is sign-extended, so `1 << 31` becomes bits 31 to 63, and storing
an `unsigned long` into `props.state` keeps its low 32 bits.

Hardware is outside the file: what a call asks of it is returned as a list of
`hw_event`s, and what the hardware answers is read from a `hw_env`.
-/

namespace DsiBacklight

/-! ## Machine arithmetic -/

/-- Conversion of a C value to `u32`: its residue modulo `2 ^ 32`. -/
def to_u32 (i : Int) : Nat := (i % 4294967296).toNat

/-- Conversion of a C value to `int`: the two's-complement reading of its
low 32 bits. -/
def to_int (i : Int) : Int :=
  if i % 4294967296 < 2147483648 then i % 4294967296 else i % 4294967296 - 4294967296

/-- The kernel macro `mult_frac(x, numer, denom)` at the operand types of its
two uses in `dsi_backlight_calculate`: `x` is an `int`, `numer` a `u32`,
`denom` a positive `int` constant.  `quot` and `rem` have the type of `x`
(truncating division); the two products and the sum are `u32`. -/
def mult_frac (x : Int) (numer : Nat) (denom : Int) : Nat :=
  let quot : Int := to_int (Int.tdiv x denom)
  let rem : Int := to_int (Int.tmod x denom)
  to_u32 ((to_u32 (quot * numer) : Int) + ((to_u32 (rem * numer) / to_u32 denom : Nat) : Int))

/-- The kernel macro `DIV_ROUND_CLOSEST(x, divisor)` at the operand types of
its use in `dsi_backlight_calculate`: `x` is an `int` and `divisor` a `u32`,
so the macro takes its unsigned branch `(x + divisor / 2) / divisor`, all in
`u32`.  A zero divisor is a division fault: `none`. -/
def DIV_ROUND_CLOSEST (x : Int) (divisor : Nat) : Option Nat :=
  if divisor = 0 then none
  else some (to_u32 ((to_u32 x : Int) + ((divisor / 2 : Nat) : Int)) / divisor)

/-! ## Data model -/

/-- The full-scale constants `MAX_BL_SCALE_LEVEL` and `MAX_SV_BL_SCALE_LEVEL`
of `dsi_panel.h`, a header that is not among the sources: they are taken as
parameters (positive `int` constants). -/
structure bl_scale_consts where
  MAX_BL_SCALE_LEVEL : Nat
  MAX_SV_BL_SCALE_LEVEL : Nat
  deriving DecidableEq, Repr

/-- The opaque command payload `struct dsi_panel_cmd_set`. -/
structure dsi_panel_cmd_set where
  payload : List Nat
  deriving DecidableEq, Repr

/-- One entry of `priv_pool` (`struct binned_lp_node`).  `slot` is the index
of the entry in `priv_pool`, that is, its address: two nodes are the same
node when their slots agree. -/
structure binned_lp_node where
  slot : Nat
  name : String
  bl_threshold : Nat
  dsi_cmd : dsi_panel_cmd_set
  deriving DecidableEq, Repr

/-- The private data of the binned path (`struct binned_lp_data`):
`mode_list` in list order, `last_lp_mode` as the slot of the node it points
to (`none` is `NULL`). -/
structure binned_lp_data where
  mode_list : List binned_lp_node
  last_lp_mode : Option Nat
  deriving DecidableEq, Repr

/-- The values the function pointer `update_bl` takes in this file. -/
inductive update_bl_fn where
  | NULL
  | dsi_backlight_update_dcs
  | dsi_panel_binned_bl_update
  deriving DecidableEq, Repr

/-- The values the function pointer `unregister` takes in this file. -/
inductive unregister_fn where
  | NULL
  | dsi_panel_bl_free_unregister
  | dsi_panel_pwm_bl_unregister
  deriving DecidableEq, Repr

/-- The fields of `struct dsi_backlight_config` that this file reads or
writes.  `priv` is the binned private data (`none` is `NULL`); `lab_vreg`
says whether the regulator is present. -/
structure dsi_backlight_config where
  bl_min_level : Nat
  bl_max_level : Nat
  brightness_max_level : Nat
  bl_scale : Nat
  bl_scale_sv : Nat
  bl_actual : Nat
  bl_update_pending : Bool
  allow_bl_update : Bool
  last_state : Nat
  lab_vreg : Bool
  update_bl : update_bl_fn
  unregister : unregister_fn
  priv : Option binned_lp_data
  deriving DecidableEq, Repr

/-- The fields of `struct backlight_properties` that this file uses:
`brightness` and `power` are `int`, `state` is the 32-bit state word. -/
structure backlight_properties where
  brightness : Int
  power : Int
  state : Nat
  deriving DecidableEq, Repr

/-! ## Level scaler -/

/-- `dsi_backlight_calculate`: the device level for a UI brightness.
`bl_min`, `bl_range`, `bl_temp` and `bl_lvl` are `int`; the result is
returned as `u32`.  `none` is the division fault of `DIV_ROUND_CLOSEST`. -/
def dsi_backlight_calculate (k : bl_scale_consts) (bl : dsi_backlight_config)
    (brightness : Int) : Option Nat :=
  if brightness ≠ 0 then
    let bl_min : Int := to_int (if bl.bl_min_level ≠ 0 then bl.bl_min_level else 1 : Nat)
    let bl_range : Int := to_int ((bl.bl_max_level : Int) - bl_min)
    let bl_temp : Int := to_int (mult_frac brightness bl.bl_scale k.MAX_BL_SCALE_LEVEL)
    let bl_temp : Int := to_int (mult_frac bl_temp bl.bl_scale_sv k.MAX_SV_BL_SCALE_LEVEL)
    if bl_temp > 1 then
      match DIV_ROUND_CLOSEST (to_int ((bl_temp - 1) * bl_range))
          (to_u32 ((bl.brightness_max_level : Int) - 1)) with
      | none => none
      | some q => some (to_u32 (to_int q + bl_min))
    else some (to_u32 (0 + bl_min))
  else some 0

/-- The two fractional scalings of `dsi_backlight_calculate` written without
wrap-around: `brightness * bl_scale / MAX_BL_SCALE_LEVEL`, truncated, then
`* bl_scale_sv / MAX_SV_BL_SCALE_LEVEL`, truncated. -/
def scaled_brightness (k : bl_scale_consts) (bl : dsi_backlight_config) (b : Nat) : Nat :=
  b * bl.bl_scale / k.MAX_BL_SCALE_LEVEL * bl.bl_scale_sv / k.MAX_SV_BL_SCALE_LEVEL

/-- The lower end of the device range used by `dsi_backlight_calculate`:
`bl_min_level ? : 1`. -/
def effective_min (bl : dsi_backlight_config) : Nat :=
  if bl.bl_min_level ≠ 0 then bl.bl_min_level else 1

/-- The value `dsi_backlight_calculate` computes when nothing wraps around,
in natural-number arithmetic. -/
def level_formula (k : bl_scale_consts) (bl : dsi_backlight_config) (b : Nat) : Nat :=
  if b = 0 then 0
  else if 1 < scaled_brightness k bl b then
    effective_min bl +
      ((scaled_brightness k bl b - 1) * (bl.bl_max_level - effective_min bl) +
        (bl.brightness_max_level - 1) / 2) / (bl.brightness_max_level - 1)
  else effective_min bl

/-! ## Power states -/

/-- `BL_CORE_SUSPENDED` of `linux/backlight.h`: `1 << 0`. -/
def BL_CORE_SUSPENDED : Nat := 1

/-- `BL_CORE_FBBLANK` of `linux/backlight.h`: `1 << 1`. -/
def BL_CORE_FBBLANK : Nat := 2

/-- `BL_STATE_LP`: the `int` `1 << 31`, as its 32-bit pattern. -/
def BL_STATE_LP : Nat := 2147483648

/-- `BL_STATE_LP2`: the `int` `1 << 30`. -/
def BL_STATE_LP2 : Nat := 1073741824

/-- `FB_BLANK_UNBLANK` of `linux/fb.h`. -/
def FB_BLANK_UNBLANK : Int := 0

/-- `FB_BLANK_POWERDOWN` of `linux/fb.h`. -/
def FB_BLANK_POWERDOWN : Int := 4

/-- The complement `~m` of an `int`, as a 32-bit pattern. -/
def bit_not (m : Nat) : Nat := 4294967295 ^^^ m

/-- The conversion of an `int`, given by its 32-bit pattern, to
`unsigned long`: the sign bit 31 is copied into bits 32 to 63. -/
def int_to_ulong (m : Nat) : Nat :=
  if m.testBit 31 then m ||| 18446744069414584320 else m

/-- `is_lp_mode`: one of the two low-power bits is set.  The argument is an
`unsigned long` and the `int` mask is converted to that type, so the mask
is bits 30 to 63; bits 32 to 63 are clear in every 32-bit state word. -/
def is_lp_mode (state : Nat) : Bool :=
  (state &&& int_to_ulong (BL_STATE_LP ||| BL_STATE_LP2)) != 0

/-- The power-mode directives that `get_state_after_dpms` switches on.  The
`int` codes `SDE_MODE_DPMS_*` are macros of a header that is not among the
sources; `other` stands for every code that is none of the four. -/
inductive power_mode where
  | SDE_MODE_DPMS_ON
  | SDE_MODE_DPMS_LP1
  | SDE_MODE_DPMS_LP2
  | SDE_MODE_DPMS_OFF
  | other
  deriving DecidableEq, Repr

/-- `get_state_after_dpms`: the `unsigned long` the function returns for a
power-mode directive, computed from the live `props.state`.  `state` is an
`unsigned long` that starts as `props.state`; the right operand of every
`&=` and `|=` is an `int` expression, converted to `unsigned long`.  The
masks with bit 31 set are negative, so after `SDE_MODE_DPMS_LP1` and
`SDE_MODE_DPMS_LP2` the value returned has bits 32 to 63 set as well. -/
def get_state_after_dpms (props : backlight_properties) (mode : power_mode) : Nat :=
  let state := props.state
  match mode with
  | .SDE_MODE_DPMS_ON =>
    state &&& int_to_ulong (bit_not (BL_CORE_FBBLANK ||| BL_STATE_LP ||| BL_STATE_LP2))
  | .SDE_MODE_DPMS_OFF =>
    (state &&& int_to_ulong (bit_not (BL_STATE_LP ||| BL_STATE_LP2)))
      ||| int_to_ulong BL_CORE_FBBLANK
  | .SDE_MODE_DPMS_LP1 =>
    (state ||| int_to_ulong BL_STATE_LP) &&& int_to_ulong (bit_not BL_STATE_LP2)
  | .SDE_MODE_DPMS_LP2 =>
    state ||| int_to_ulong (BL_STATE_LP ||| BL_STATE_LP2)
  | .other => state

/-! ## Hardware boundary -/

/-- The two regulator modes `dsi_backlight_early_dpms` asks for. -/
inductive regulator_mode where
  | REGULATOR_MODE_NORMAL
  | REGULATOR_MODE_IDLE
  deriving DecidableEq, Repr

/-- What a call asks of the hardware, in the order asked. -/
inductive hw_event where
  | dcs_set_display_brightness (bl_lvl : Nat) (num_params : Nat)
  | cmd_set_transfer (cmd : dsi_panel_cmd_set)
  | regulator_set_mode (mode : regulator_mode)
  deriving DecidableEq, Repr

/-- What the hardware answers: `dsi_panel_initialized(panel)` and the return
code of `mipi_dsi_dcs_set_display_brightness` for a level and a parameter
count. -/
structure hw_env where
  panel_initialized : Bool
  dcs_rc : Nat → Nat → Int

/-- `EINVAL` of `errno-base.h`. -/
def EINVAL : Int := 22

/-- `ENOMEM` of `errno-base.h`. -/
def ENOMEM : Int := 12

/-- `ENOTSUPP` of `linux/errno.h`. -/
def ENOTSUPP : Int := 524

/-- `UINT_MAX`. -/
def UINT_MAX : Nat := 4294967295

/-- `MAX_BINNED_BL_MODES`. -/
def MAX_BINNED_BL_MODES : Nat := 10

/-! ## Plain level dispatch -/

/-- `dsi_backlight_update_dcs`: the return code and the hardware requests
made. -/
def dsi_backlight_update_dcs (hw : hw_env) (bl : dsi_backlight_config) (bl_lvl : Nat) :
    Int × List hw_event :=
  if bl_lvl > 0xffff then (-EINVAL, [])
  else if bl_lvl = bl.bl_actual then (0, [])
  else
    let num_params : Nat := if bl.bl_max_level > 0xFF then 2 else 1
    (hw.dcs_rc bl_lvl num_params, [hw_event.dcs_set_display_brightness bl_lvl num_params])

/-! ## Binned low-power modes -/

/-- The selection loop of `dsi_panel_binned_bl_update`: in a low-power state
the first node of `mode_list` with `props->brightness <= bl_threshold`, the
`int` brightness being converted to `u32` for the comparison; `NULL`
otherwise. -/
def binned_lp_select (props : backlight_properties) (mode_list : List binned_lp_node) :
    Option binned_lp_node :=
  if is_lp_mode props.state then
    mode_list.find? (fun tmp => decide (to_u32 props.brightness ≤ tmp.bl_threshold))
  else none

/-- `dsi_panel_binned_bl_update`: return code, updated config and hardware
requests.  `none` is the fault of reading a `NULL` `priv`. -/
def dsi_panel_binned_bl_update (hw : hw_env) (bl : dsi_backlight_config)
    (props : backlight_properties) (bl_lvl : Nat) :
    Option (Int × dsi_backlight_config × List hw_event) :=
  match bl.priv with
  | none => none
  | some lp_data =>
    let node := binned_lp_select props lp_data.mode_list
    let step : dsi_backlight_config × List hw_event :=
      if node.map binned_lp_node.slot ≠ lp_data.last_lp_mode then
        let bl1 := { bl with
          priv := some { lp_data with last_lp_mode := node.map binned_lp_node.slot } }
        match node with
        | some n => (bl1, [hw_event.cmd_set_transfer n.dsi_cmd])
        | none => ({ bl1 with bl_actual := to_u32 (-1) }, [])
      else (bl, [])
    match node with
    | some _ => some (0, step.1, step.2)
    | none =>
      let r := dsi_backlight_update_dcs hw step.1 bl_lvl
      some (r.1, step.1, step.2 ++ r.2)

/-- A child node of `google,lp-modes` as the parser sees it: the result of
reading `google,dsi-lp-brightness-threshold` (`none` when the property is
absent), the return code of `dsi_panel_parse_dt_cmd_set` with the command
set it produced, and the `label`. -/
structure lp_mode_child where
  threshold : Option Nat
  cmd_rc : Int
  dsi_cmd : dsi_panel_cmd_set
  label : String
  deriving DecidableEq, Repr

/-- `_dsi_panel_binned_lp_parse`: fills a pool node from a child node. -/
def _dsi_panel_binned_lp_parse (np : lp_mode_child) (node : binned_lp_node) :
    Int × binned_lp_node :=
  let node := { node with
    bl_threshold := match np.threshold with
      | some val => val
      | none => UINT_MAX }
  if np.cmd_rc ≠ 0 then (np.cmd_rc, node)
  else (0, { node with dsi_cmd := np.dsi_cmd, name := np.label })

/-- `_dsi_panel_binned_bl_cmp`: the difference of the two `u32` thresholds,
returned as `int`. -/
def _dsi_panel_binned_bl_cmp (a b : binned_lp_node) : Int :=
  to_int ((a.bl_threshold : Int) - (b.bl_threshold : Int))

/-- Insertion of `a` in front of the first element it does not sort after. -/
def list_sort_insert {α : Type} (cmp : α → α → Int) (a : α) : List α → List α
  | [] => [a]
  | b :: l => if cmp a b ≤ 0 then a :: b :: l else b :: list_sort_insert cmp a l

/-- The kernel library routine `list_sort` (not among the sources), by its
contract: a stable sort that puts `a` before `b` when `cmp(a, b) <= 0` and
keeps the input order of elements otherwise. -/
def list_sort {α : Type} (cmp : α → α → Int) : List α → List α
  | [] => []
  | a :: l => list_sort_insert cmp a (list_sort cmp l)

/-- The zeroed pool entry at index `i` of `priv_pool`. -/
def priv_pool_entry (i : Nat) : binned_lp_node :=
  { slot := i, name := "", bl_threshold := 0, dsi_cmd := ⟨[]⟩ }

/-- The pool nodes the parse loop fills from children that all parse, the
first of them at pool index `lp_node`. -/
def parsed_nodes : List lp_mode_child → Nat → List binned_lp_node
  | [], _ => []
  | child_np :: rest, lp_node =>
    (_dsi_panel_binned_lp_parse child_np (priv_pool_entry lp_node)).2 ::
      parsed_nodes rest (lp_node + 1)

/-- The `for_each_child_of_node` loop of `dsi_panel_binned_lp_register`:
`lp_node` is the index of the next pool entry, `rc` the current return code.
`Except.error rc` is a `goto exit` with that `rc`; `Except.ok` is the loop
running to its end. -/
def binned_lp_parse_loop : List lp_mode_child → Nat → List binned_lp_node → Int →
    Except Int (Int × List binned_lp_node)
  | [], _, mode_list, rc => .ok (rc, mode_list)
  | child_np :: rest, lp_node, mode_list, _ =>
    let r := _dsi_panel_binned_lp_parse child_np (priv_pool_entry lp_node)
    if r.1 ≠ 0 then .error r.1
    else if lp_node + 1 > MAX_BINNED_BL_MODES - 1 then .error (-ENOTSUPP)
    else binned_lp_parse_loop rest (lp_node + 1) (mode_list ++ [r.2]) r.1

/-- `dsi_panel_binned_lp_register`: the return code and the config after the
call.  `kzalloc_ok` says whether the allocation succeeded; `lp_modes_np` is
the `google,lp-modes` node with its children (`none` when absent). -/
def dsi_panel_binned_lp_register (kzalloc_ok : Bool)
    (lp_modes_np : Option (List lp_mode_child)) (bl : dsi_backlight_config) :
    Int × dsi_backlight_config :=
  if !kzalloc_ok then (-ENOMEM, bl)
  else
    match lp_modes_np with
    | none => (-ENOTSUPP, bl)
    | some children =>
      let num_modes := children.length
      if num_modes = 0 ∨ num_modes > MAX_BINNED_BL_MODES then (-ENOTSUPP, bl)
      else
        match binned_lp_parse_loop children 0 [] (-ENOTSUPP) with
        | .error rc => (rc, bl)
        | .ok (rc, mode_list) =>
          (rc, { bl with
            update_bl := update_bl_fn.dsi_panel_binned_bl_update
            unregister := unregister_fn.dsi_panel_bl_free_unregister
            priv := some { mode_list := list_sort _dsi_panel_binned_bl_cmp mode_list
                           last_lp_mode := none } })

/-! ## Coordinator -/

/-- The call `bl->update_bl(bl, bl_lvl)` for a non-`NULL` pointer. -/
def call_update_bl (hw : hw_env) (bl : dsi_backlight_config) (props : backlight_properties)
    (bl_lvl : Nat) : Option (Int × dsi_backlight_config × List hw_event) :=
  match bl.update_bl with
  | .NULL => none
  | .dsi_backlight_update_dcs =>
    let r := dsi_backlight_update_dcs hw bl bl_lvl
    some (r.1, bl, r.2)
  | .dsi_panel_binned_bl_update => dsi_panel_binned_bl_update hw bl props bl_lvl

/-- The brightness `dsi_backlight_update_status` scales: `props.brightness`,
replaced by `0` when the state word has `BL_CORE_FBBLANK` or
`BL_CORE_SUSPENDED` set or `props.power` is not `FB_BLANK_UNBLANK`. -/
def requested_brightness (props : backlight_properties) : Int :=
  if (props.state &&& (BL_CORE_FBBLANK ||| BL_CORE_SUSPENDED)) ≠ 0 ∨
      props.power ≠ FB_BLANK_UNBLANK then 0
  else props.brightness

/-- `dsi_backlight_update_status`: return code, config after the call and
hardware requests made.  `none` is a fault (division by zero in the scaler,
`NULL` private data in the binned path). -/
def dsi_backlight_update_status (k : bl_scale_consts) (hw : hw_env)
    (bl : dsi_backlight_config) (props : backlight_properties) :
    Option (Int × dsi_backlight_config × List hw_event) :=
  let brightness : Int := requested_brightness props
  match dsi_backlight_calculate k bl brightness with
  | none => none
  | some lvl =>
    let bl_lvl : Int := to_int lvl
    if to_u32 bl_lvl = bl.bl_actual ∧ bl.last_state = props.state then some (0, bl, [])
    else if !bl.allow_bl_update then some (0, { bl with bl_update_pending := true }, [])
    else if hw.panel_initialized ∧ bl.update_bl ≠ update_bl_fn.NULL then
      match call_update_bl hw bl props (to_u32 bl_lvl) with
      | none => none
      | some (rc, bl1, ev) =>
        if rc ≠ 0 then some (rc, bl1, ev)
        else some (rc, { bl1 with bl_update_pending := false
                                  bl_actual := to_u32 bl_lvl
                                  last_state := props.state }, ev)
    else some (0, { bl with bl_actual := to_u32 bl_lvl, last_state := props.state }, [])

/-- `dsi_backlight_early_dpms`: the return code, the config and the
properties after the call, and the regulator requests made.  `bd` is
`bl->bl_device` (`none` is `NULL`).  The function writes to neither `bl` nor
`bd`: `state` is a local. -/
def dsi_backlight_early_dpms (bl : dsi_backlight_config) (bd : Option backlight_properties)
    (mode : power_mode) :
    Int × dsi_backlight_config × Option backlight_properties × List hw_event :=
  match bd with
  | none => (0, bl, none, [])
  | some props =>
    let state := get_state_after_dpms props mode
    if bl.lab_vreg then
      if is_lp_mode bl.last_state ∧ ¬ is_lp_mode state then
        (0, bl, some props, [hw_event.regulator_set_mode regulator_mode.REGULATOR_MODE_NORMAL])
      else if ¬ is_lp_mode bl.last_state ∧ is_lp_mode state then
        (0, bl, some props, [hw_event.regulator_set_mode regulator_mode.REGULATOR_MODE_IDLE])
      else (0, bl, some props, [])
    else (0, bl, some props, [])

/-- `dsi_backlight_late_dpms`: the return code, the config and the
properties after the call, and the hardware requests made.  The new state is
committed to `props.power` and `props.state`, the `unsigned int`
`props.state` keeping the low 32 bits of the `unsigned long`; then
`backlight_update_status` runs `dsi_backlight_update_status`, whose return
code is dropped.  `none` is a fault of that call. -/
def dsi_backlight_late_dpms (k : bl_scale_consts) (hw : hw_env) (bl : dsi_backlight_config)
    (bd : Option backlight_properties) (mode : power_mode) :
    Option (Int × dsi_backlight_config × Option backlight_properties × List hw_event) :=
  match bd with
  | none => some (0, bl, none, [])
  | some props =>
    let state := get_state_after_dpms props mode
    let props1 : backlight_properties :=
      { props with
        power :=
          if (state &&& int_to_ulong BL_CORE_FBBLANK) ≠ 0 then FB_BLANK_POWERDOWN
          else FB_BLANK_UNBLANK
        state := state % 4294967296 }
    match dsi_backlight_update_status k hw bl props1 with
    | none => none
    | some r => some (0, r.2.1, some props1, r.2.2)

/-- The number of hardware dispatches (levels and command sequences) among
the requests of a call. -/
def dispatch_count (ev : List hw_event) : Nat :=
  (ev.filter (fun e => match e with
    | .dcs_set_display_brightness _ _ => true
    | .cmd_set_transfer _ => true
    | .regulator_set_mode _ => false)).length

/-- The value `dsi_backlight_calculate` computes for well-typed inputs, in
natural-number arithmetic: as `level_formula`, with the wrap-around of the
`u32` sum in `DIV_ROUND_CLOSEST` kept. -/
def level_wrapped (k : bl_scale_consts) (bl : dsi_backlight_config) (b : Nat) : Nat :=
  if b = 0 then 0
  else if 1 < scaled_brightness k bl b then
    effective_min bl +
      ((scaled_brightness k bl b - 1) * (bl.bl_max_level - effective_min bl) +
        (bl.brightness_max_level - 1) / 2) % 4294967296 / (bl.brightness_max_level - 1)
  else effective_min bl

/-- The typing of what `dsi_backlight_calculate` reads: the full-scale
constants are positive and at most `2 ^ 16` (so that `mult_frac` with a scale
factor at most the full scale stays within `u32`), `bl_max_level` and
`brightness_max_level` are `u32` values. -/
def well_typed (k : bl_scale_consts) (bl : dsi_backlight_config) : Prop :=
  0 < k.MAX_BL_SCALE_LEVEL ∧ k.MAX_BL_SCALE_LEVEL ≤ 65536 ∧
  0 < k.MAX_SV_BL_SCALE_LEVEL ∧ k.MAX_SV_BL_SCALE_LEVEL ≤ 65536 ∧
  bl.bl_max_level < 4294967296 ∧ bl.brightness_max_level < 4294967296

instance (k : bl_scale_consts) (bl : dsi_backlight_config) : Decidable (well_typed k bl) := by
  unfold well_typed
  infer_instance

/-- The 32-bit arithmetic of `dsi_backlight_calculate` does not wrap around:
the inputs are well typed and the rounded product of the largest scaled
brightness with the device range fits in 32 bits.  This is so whenever
`bl_max_level` and `brightness_max_level` are at most `65535`. -/
def no_wrap (k : bl_scale_consts) (bl : dsi_backlight_config) : Prop :=
  well_typed k bl ∧
  (bl.brightness_max_level - 1) * (bl.bl_max_level - effective_min bl) +
    (bl.brightness_max_level - 1) / 2 < 4294967296

instance (k : bl_scale_consts) (bl : dsi_backlight_config) : Decidable (no_wrap k bl) := by
  unfold no_wrap
  infer_instance

/-! ## Sequences of requests -/

/-- The state word after a sequence of power-mode requests, each committed
as `dsi_backlight_late_dpms` commits it: `props.state` becomes the low 32
bits of what `get_state_after_dpms` returns. -/
def state_after_requests (props : backlight_properties) (modes : List power_mode) : Nat :=
  modes.foldl
    (fun state mode => get_state_after_dpms { props with state := state } mode % 4294967296)
    props.state

/-- `n` calls of `dsi_backlight_update_status` in a row with the same
properties, each starting from the config the call before left: the config
after the last call and the hardware requests of all the calls. -/
def update_status_repeat (k : bl_scale_consts) (hw : hw_env) (props : backlight_properties) :
    Nat → dsi_backlight_config → Option (dsi_backlight_config × List hw_event)
  | 0, bl => some (bl, [])
  | n + 1, bl =>
    match dsi_backlight_update_status k hw bl props with
    | none => none
    | some r =>
      match update_status_repeat k hw props n r.2.1 with
      | none => none
      | some rest => some (rest.1, r.2.2 ++ rest.2)

/-- The number of command sequences among the requests of a call. -/
def cmd_transfer_count (ev : List hw_event) : Nat :=
  (ev.filter (fun e => match e with
    | .cmd_set_transfer _ => true
    | _ => false)).length

/-! ## Reference formula of the specification -/

/-- `roundToNearest` as the specification words it: the nearest integer, a
half rounded up. -/
def roundToNearest (x : ℚ) : ℤ := ⌊x + 1 / 2⌋

/-- The reference formula of the specification for `computeLevel` at a
brightness `b > 0`: with `s` the brightness after the two truncated
scalings, `effectiveMinLevel + roundToNearest ((s - 1) * range / (maxUiLevel
- 1))` when `s > 1` and `effectiveMinLevel` otherwise, where `range =
maxLevel - effectiveMinLevel`. -/
def computeLevel_reference (k : bl_scale_consts) (bl : dsi_backlight_config) (b : Nat) : ℤ :=
  let s : Nat := b * bl.bl_scale / k.MAX_BL_SCALE_LEVEL * bl.bl_scale_sv / k.MAX_SV_BL_SCALE_LEVEL
  let effectiveMinLevel : ℤ := if bl.bl_min_level ≠ 0 then (bl.bl_min_level : ℤ) else 1
  let range : ℤ := (bl.bl_max_level : ℤ) - effectiveMinLevel
  if s > 1 then
    effectiveMinLevel +
      roundToNearest ((((s : ℤ) - 1) * range : ℤ) / (((bl.brightness_max_level : ℤ) - 1 : ℤ) : ℚ))
  else effectiveMinLevel

/-- Nothing wraps around in `dsi_backlight_calculate` at the brightness `b`:
the rounded product of the scaled brightness with the device range and the
level it gives fit in 32 bits.  This is so whenever `no_wrap` holds, the
scale factors are at most their full scale, the device range is not empty
and `b` is at most `brightness_max_level`. -/
def level_fits (k : bl_scale_consts) (bl : dsi_backlight_config) (b : Nat) : Prop :=
  (scaled_brightness k bl b - 1) * (bl.bl_max_level - effective_min bl) +
    (bl.brightness_max_level - 1) / 2 < 4294967296 ∧
  effective_min bl +
    ((scaled_brightness k bl b - 1) * (bl.bl_max_level - effective_min bl) +
      (bl.brightness_max_level - 1) / 2) / (bl.brightness_max_level - 1) < 4294967296

instance (k : bl_scale_consts) (bl : dsi_backlight_config) (b : Nat) :
    Decidable (level_fits k bl b) := by
  unfold level_fits
  infer_instance

/-! ## Example values -/

/-- Full-scale constants `1024` and `65535`. -/
def example_consts : bl_scale_consts :=
  { MAX_BL_SCALE_LEVEL := 1024, MAX_SV_BL_SCALE_LEVEL := 65535 }

/-- A config with the given level limits, both scale factors at the full
scale of `example_consts`, nothing applied yet, updates allowed and the plain
DCS dispatch installed. -/
def example_config (bl_min_level bl_max_level brightness_max_level : Nat) :
    dsi_backlight_config :=
  { bl_min_level := bl_min_level
    bl_max_level := bl_max_level
    brightness_max_level := brightness_max_level
    bl_scale := 1024
    bl_scale_sv := 65535
    bl_actual := 0
    bl_update_pending := false
    allow_bl_update := true
    last_state := 0
    lab_vreg := false
    update_bl := update_bl_fn.dsi_backlight_update_dcs
    unregister := unregister_fn.NULL
    priv := none }

/-- Unblanked properties with the given brightness and state word. -/
def example_props (brightness : Int) (state : Nat) : backlight_properties :=
  { brightness := brightness, power := FB_BLANK_UNBLANK, state := state }

/-- The profile `dim`, threshold `50`. -/
def example_dim : binned_lp_node :=
  { slot := 2, name := "dim", bl_threshold := 50, dsi_cmd := ⟨[1]⟩ }

/-- The profile `medium`, threshold `150`. -/
def example_medium : binned_lp_node :=
  { slot := 1, name := "medium", bl_threshold := 150, dsi_cmd := ⟨[2]⟩ }

/-- The profile `bright`, declared without a threshold. -/
def example_bright : binned_lp_node :=
  { slot := 0, name := "bright", bl_threshold := UINT_MAX, dsi_cmd := ⟨[3]⟩ }

/-- The table `[dim:50, medium:150, bright:MAX]`. -/
def example_table : List binned_lp_node := [example_dim, example_medium, example_bright]

/-- A child node whose command set parses. -/
def example_child (threshold : Option Nat) (label : String) (cmd : Nat) : lp_mode_child :=
  { threshold := threshold, cmd_rc := 0, dsi_cmd := ⟨[cmd]⟩, label := label }

/-- The declared profiles `{missing, 150, 50}`, in that order. -/
def example_children : List lp_mode_child :=
  [example_child none "bright" 3, example_child (some 150) "medium" 2,
   example_child (some 50) "dim" 1]

/-- Hardware that is initialised and rejects every level with `-5` (`-EIO`). -/
def failing_hw : hw_env :=
  { panel_initialized := true, dcs_rc := fun _ _ => -5 }

/-- A config on the binned path with the table `[dim:50, medium:150,
bright:MAX]`, the profile `dim` active, level `2048` applied last and
LowPower1 as the last state. -/
def example_binned_config : dsi_backlight_config :=
  { example_config 0 4095 255 with
    bl_actual := 2048
    last_state := BL_STATE_LP
    update_bl := update_bl_fn.dsi_panel_binned_bl_update
    unregister := unregister_fn.dsi_panel_bl_free_unregister
    priv := some { mode_list := example_table, last_lp_mode := some example_dim.slot } }

/-- Hardware that is initialised and accepts every level. -/
def working_hw : hw_env :=
  { panel_initialized := true, dcs_rc := fun _ _ => 0 }

/-- A config on the binned path with the table `[dim:50, medium:150,
bright:MAX]` in the normal state: no profile active, the level `630` of
brightness `40` applied last. -/
def example_binned_normal_config : dsi_backlight_config :=
  { example_binned_config with
    bl_actual := 630
    last_state := 0
    priv := some { mode_list := example_table, last_lp_mode := none } }

/-- Two calls of `dsi_backlight_update_status` in a row with the same
request and the same hardware answers: the second call starts from the config
the first one left.  The result is the pair of the two results. -/
def update_status_twice (k : bl_scale_consts) (hw : hw_env) (bl : dsi_backlight_config)
    (props : backlight_properties) :
    Option ((Int × dsi_backlight_config × List hw_event) ×
      (Int × dsi_backlight_config × List hw_event)) :=
  match dsi_backlight_update_status k hw bl props with
  | none => none
  | some r1 =>
    match dsi_backlight_update_status k hw r1.2.1 props with
    | none => none
    | some r2 => some (r1, r2)

/-! # Theorems -/

/-! ## Machine arithmetic -/

theorem to_u32_natCast (n : Nat) (h : n < 4294967296) : to_u32 (n : Int) = n := by
  unfold to_u32
  omega

theorem to_int_natCast (n : Nat) (h : n < 2147483648) : to_int (n : Int) = n := by
  unfold to_int
  split <;> omega

theorem to_int_modEq (i : Int) : to_int i ≡ i [ZMOD 4294967296] := by
  unfold to_int Int.ModEq
  split <;> omega

theorem to_u32_congr {a b : Int} (h : a ≡ b [ZMOD 4294967296]) : to_u32 a = to_u32 b := by
  unfold to_u32
  rw [h]

theorem to_u32_of_modEq {a : Int} {n : Nat} (h : a ≡ (n : Int) [ZMOD 4294967296])
    (hn : n < 4294967296) : to_u32 a = n := by
  rw [to_u32_congr h, to_u32_natCast n hn]

theorem mul_div_split (x n D : Nat) (hD : 0 < D) :
    x / D * n + x % D * n / D = x * n / D := by
  have h : x * n = x % D * n + x / D * n * D := by
    conv_lhs => rw [← Nat.div_add_mod x D]
    ring
  rw [h, Nat.add_mul_div_right _ _ hD]
  omega

theorem mul_div_le_self (x n D : Nat) (hn : n ≤ D) : x * n / D ≤ x := by
  apply Nat.div_le_of_le_mul
  rw [Nat.mul_comm D x]
  exact Nat.mul_le_mul_left x hn

theorem mult_frac_eq (x n D : Nat) (hD : 0 < D) (hD' : D ≤ 65536) (hn : n ≤ D)
    (hx : x < 2147483648) : mult_frac (x : Int) n (D : Int) = x * n / D := by
  unfold mult_frac
  have hq : Int.tdiv (x : Int) (D : Int) = ((x / D : Nat) : Int) := (Int.ofNat_tdiv x D).symm
  have hr : Int.tmod (x : Int) (D : Int) = ((x % D : Nat) : Int) := (Int.ofNat_tmod x D).symm
  have hqle : x / D ≤ x := Nat.div_le_self x D
  have hrlt : x % D < D := Nat.mod_lt x hD
  have hqn : x / D * n ≤ x := by
    calc x / D * n ≤ x / D * D := Nat.mul_le_mul_left _ hn
      _ ≤ x := Nat.div_mul_le_self x D
  have hrn : x % D * n < 4294967296 := by
    calc x % D * n ≤ x % D * D := Nat.mul_le_mul_left _ hn
      _ < D * D := Nat.mul_lt_mul_of_pos_right hrlt hD
      _ ≤ 65536 * 65536 := Nat.mul_le_mul hD' hD'
      _ = 4294967296 := by norm_num
  have hsum := mul_div_split x n D hD
  have hle := mul_div_le_self x n D hn
  simp only [hq, hr]
  rw [to_int_natCast _ (by omega), to_int_natCast _ (by omega)]
  rw [← Nat.cast_mul, ← Nat.cast_mul, to_u32_natCast _ (by omega), to_u32_natCast _ hrn,
    to_u32_natCast D (by omega), ← Nat.cast_add, to_u32_natCast _ (by omega)]
  exact hsum

theorem scaled_brightness_le (k : bl_scale_consts) (bl : dsi_backlight_config) (b : Nat)
    (hs : bl.bl_scale ≤ k.MAX_BL_SCALE_LEVEL) (hsv : bl.bl_scale_sv ≤ k.MAX_SV_BL_SCALE_LEVEL) :
    scaled_brightness k bl b ≤ b := by
  unfold scaled_brightness
  exact le_trans (mul_div_le_self _ _ _ hsv) (mul_div_le_self _ _ _ hs)

theorem scaled_brightness_mono (k : bl_scale_consts) (bl : dsi_backlight_config) {a b : Nat}
    (h : a ≤ b) : scaled_brightness k bl a ≤ scaled_brightness k bl b := by
  unfold scaled_brightness
  apply Nat.div_le_div_right
  apply Nat.mul_le_mul_right
  apply Nat.div_le_div_right
  exact Nat.mul_le_mul_right _ h

theorem to_u32_natCast_mod (n : Nat) : to_u32 (n : Int) = n % 4294967296 := by
  unfold to_u32
  omega

theorem to_u32_of_modEq_mod {a : Int} {n : Nat} (h : a ≡ (n : Int) [ZMOD 4294967296]) :
    to_u32 a = n % 4294967296 := by
  rw [to_u32_congr h, to_u32_natCast_mod]

theorem rounded_quotient_le (t R d : Nat) (hd : 0 < d) (ht : t ≤ d) :
    (t * R + d / 2) / d ≤ R := by
  have h1 : t * R ≤ d * R := Nat.mul_le_mul_right R ht
  have h2 : d / 2 < d := Nat.div_lt_self hd (by norm_num)
  have h3 : (t * R + d / 2) / d < R + 1 := by
    apply Nat.div_lt_of_lt_mul
    rw [Nat.mul_add]
    omega
  omega

/-- The rounded quotient stays within the range even when the `u32` sum
wraps around. -/
theorem wrapped_quotient_le (t R d : Nat) (hd : 0 < d) (ht : t ≤ d) :
    (t * R + d / 2) % 4294967296 / d ≤ R := by
  by_cases hlt : t * R + d / 2 < 4294967296
  · rw [Nat.mod_eq_of_lt hlt]
    exact rounded_quotient_le t R d hd ht
  · have h1 : t * R ≤ d * R := Nat.mul_le_mul_right R ht
    have h2 : d / 2 < d := Nat.div_lt_self hd (by norm_num)
    have h3 : (t * R + d / 2) % 4294967296 < 4294967296 := Nat.mod_lt _ (by norm_num)
    have h4 : (t * R + d / 2) % 4294967296 / d < R + 1 := by
      apply Nat.div_lt_of_lt_mul
      rw [Nat.mul_add]
      omega
    omega

/-- The value of `dsi_backlight_calculate` for well-typed inputs, scale
factors at most their full scale and a non-empty device range. -/
theorem calculate_eq_wrapped (k : bl_scale_consts) (bl : dsi_backlight_config) (b : Nat)
    (hw : well_typed k bl)
    (hs : bl.bl_scale ≤ k.MAX_BL_SCALE_LEVEL) (hsv : bl.bl_scale_sv ≤ k.MAX_SV_BL_SCALE_LEVEL)
    (hmin : effective_min bl ≤ bl.bl_max_level)
    (hb0 : 0 < b) (hb : b ≤ bl.brightness_max_level) (hb31 : b < 2147483648) :
    dsi_backlight_calculate k bl (b : Int) = some (level_wrapped k bl b) := by
  obtain ⟨hk1, hk1', hk2, hk2', hmax, hui⟩ := hw
  have ht1 : b * bl.bl_scale / k.MAX_BL_SCALE_LEVEL ≤ b := mul_div_le_self _ _ _ hs
  have ht : scaled_brightness k bl b ≤ b := scaled_brightness_le k bl b hs hsv
  have e1 : mult_frac (b : Int) bl.bl_scale (k.MAX_BL_SCALE_LEVEL : Int)
      = b * bl.bl_scale / k.MAX_BL_SCALE_LEVEL :=
    mult_frac_eq b _ _ hk1 hk1' hs hb31
  have e2 : mult_frac ((b * bl.bl_scale / k.MAX_BL_SCALE_LEVEL : Nat) : Int) bl.bl_scale_sv
      (k.MAX_SV_BL_SCALE_LEVEL : Int) = scaled_brightness k bl b :=
    mult_frac_eq _ _ _ hk2 hk2' hsv (by omega)
  have hb' : (b : Int) ≠ 0 := by omega
  have hemin : (if bl.bl_min_level ≠ 0 then bl.bl_min_level else 1) = effective_min bl := rfl
  unfold dsi_backlight_calculate
  simp only []
  rw [if_pos hb', e1, to_int_natCast (b * bl.bl_scale / k.MAX_BL_SCALE_LEVEL) (by omega), e2,
    to_int_natCast (scaled_brightness k bl b) (by omega), hemin]
  unfold level_wrapped
  rw [if_neg (by omega : ¬ b = 0)]
  have hm := to_int_modEq ((effective_min bl : Nat) : Int)
  by_cases h1 : 1 < scaled_brightness k bl b
  · have h1' : ((scaled_brightness k bl b : Nat) : Int) > 1 := by omega
    rw [if_pos h1', if_pos h1]
    have hd : to_u32 ((bl.brightness_max_level : Int) - 1) = bl.brightness_max_level - 1 := by
      have : ((bl.brightness_max_level : Int) - 1) = ((bl.brightness_max_level - 1 : Nat) : Int) := by
        omega
      rw [this, to_u32_natCast _ (by omega)]
    have hd0 : bl.brightness_max_level - 1 ≠ 0 := by omega
    have hx : to_u32 (to_int ((((scaled_brightness k bl b : Nat) : Int) - 1) *
        to_int ((bl.bl_max_level : Int) - to_int ((effective_min bl : Nat) : Int))))
        = (scaled_brightness k bl b - 1) * (bl.bl_max_level - effective_min bl) % 4294967296 := by
      apply to_u32_of_modEq_mod
      refine (to_int_modEq _).trans ?_
      have hr : to_int ((bl.bl_max_level : Int) - to_int ((effective_min bl : Nat) : Int))
          ≡ ((bl.bl_max_level - effective_min bl : Nat) : Int) [ZMOD 4294967296] := by
        refine (to_int_modEq _).trans ?_
        rw [Nat.cast_sub hmin]
        exact Int.ModEq.sub (Int.ModEq.refl _) hm
      have hl : ((scaled_brightness k bl b : Nat) : Int) - 1
          = ((scaled_brightness k bl b - 1 : Nat) : Int) := by omega
      rw [hl, Nat.cast_mul]
      exact Int.ModEq.mul (Int.ModEq.refl _) hr
    have hq := wrapped_quotient_le (scaled_brightness k bl b - 1)
      (bl.bl_max_level - effective_min bl) (bl.brightness_max_level - 1) (by omega) (by omega)
    have hR := Nat.sub_add_cancel hmin
    unfold DIV_ROUND_CLOSEST
    rw [hd, if_neg hd0, hx, ← Nat.cast_add, to_u32_natCast_mod, Nat.mod_add_mod]
    simp only []
    refine congrArg some ?_
    generalize ((scaled_brightness k bl b - 1) * (bl.bl_max_level - effective_min bl) +
      (bl.brightness_max_level - 1) / 2) % 4294967296 / (bl.brightness_max_level - 1) = q at hq ⊢
    generalize bl.bl_max_level - effective_min bl = R at hq hR
    apply to_u32_of_modEq _ (by omega)
    rw [Nat.cast_add, add_comm]
    exact Int.ModEq.add hm (to_int_modEq _)
  · have h1' : ¬ ((scaled_brightness k bl b : Nat) : Int) > 1 := by omega
    rw [if_neg h1', if_neg h1]
    refine congrArg some ?_
    apply to_u32_of_modEq _ (by omega)
    simpa using hm

theorem level_wrapped_eq_formula (k : bl_scale_consts) (bl : dsi_backlight_config) (b : Nat)
    (hw : no_wrap k bl)
    (hs : bl.bl_scale ≤ k.MAX_BL_SCALE_LEVEL) (hsv : bl.bl_scale_sv ≤ k.MAX_SV_BL_SCALE_LEVEL)
    (hb : b ≤ bl.brightness_max_level) :
    level_wrapped k bl b = level_formula k bl b := by
  have ht : scaled_brightness k bl b ≤ b := scaled_brightness_le k bl b hs hsv
  have hprod : (scaled_brightness k bl b - 1) * (bl.bl_max_level - effective_min bl)
      ≤ (bl.brightness_max_level - 1) * (bl.bl_max_level - effective_min bl) :=
    Nat.mul_le_mul_right _ (by omega)
  unfold level_wrapped level_formula
  rw [Nat.mod_eq_of_lt (lt_of_le_of_lt (Nat.add_le_add_right hprod _) hw.2)]

theorem calculate_eq_formula (k : bl_scale_consts) (bl : dsi_backlight_config) (b : Nat)
    (hw : no_wrap k bl)
    (hs : bl.bl_scale ≤ k.MAX_BL_SCALE_LEVEL) (hsv : bl.bl_scale_sv ≤ k.MAX_SV_BL_SCALE_LEVEL)
    (hmin : effective_min bl ≤ bl.bl_max_level)
    (hb : b ≤ bl.brightness_max_level) (hb31 : b < 2147483648) :
    dsi_backlight_calculate k bl (b : Int) = some (level_formula k bl b) := by
  rcases Nat.eq_zero_or_pos b with h | h
  · subst h
    unfold dsi_backlight_calculate level_formula
    simp
  · rw [calculate_eq_wrapped k bl b hw.1 hs hsv hmin h hb hb31,
      level_wrapped_eq_formula k bl b hw hs hsv hb]

theorem level_wrapped_bounds (k : bl_scale_consts) (bl : dsi_backlight_config) (b : Nat)
    (hs : bl.bl_scale ≤ k.MAX_BL_SCALE_LEVEL) (hsv : bl.bl_scale_sv ≤ k.MAX_SV_BL_SCALE_LEVEL)
    (hmin : effective_min bl ≤ bl.bl_max_level)
    (hb0 : 0 < b) (hb : b ≤ bl.brightness_max_level) :
    effective_min bl ≤ level_wrapped k bl b ∧ level_wrapped k bl b ≤ bl.bl_max_level := by
  have ht : scaled_brightness k bl b ≤ b := scaled_brightness_le k bl b hs hsv
  unfold level_wrapped
  rw [if_neg (by omega : ¬ b = 0)]
  by_cases h1 : 1 < scaled_brightness k bl b
  · rw [if_pos h1]
    have hq := wrapped_quotient_le (scaled_brightness k bl b - 1)
      (bl.bl_max_level - effective_min bl) (bl.brightness_max_level - 1) (by omega) (by omega)
    have hR := Nat.sub_add_cancel hmin
    generalize ((scaled_brightness k bl b - 1) * (bl.bl_max_level - effective_min bl) +
      (bl.brightness_max_level - 1) / 2) % 4294967296 / (bl.brightness_max_level - 1) = q at hq ⊢
    generalize bl.bl_max_level - effective_min bl = R at hq hR
    omega
  · rw [if_neg h1]
    omega

theorem level_formula_mono (k : bl_scale_consts) (bl : dsi_backlight_config) {a b : Nat}
    (h : a ≤ b) : level_formula k bl a ≤ level_formula k bl b := by
  have ht := scaled_brightness_mono k bl h
  unfold level_formula
  by_cases ha : a = 0
  · rw [if_pos ha]
    exact Nat.zero_le _
  · rw [if_neg ha, if_neg (by omega : ¬ b = 0)]
    by_cases h1 : 1 < scaled_brightness k bl a
    · rw [if_pos h1, if_pos (by omega : 1 < scaled_brightness k bl b)]
      apply Nat.add_le_add_left
      apply Nat.div_le_div_right
      apply Nat.add_le_add_right
      exact Nat.mul_le_mul_right _ (by omega)
    · rw [if_neg h1]
      split
      · exact Nat.le_add_right _ _
      · exact le_refl _

theorem level_formula_full_scale (k : bl_scale_consts) (bl : dsi_backlight_config)
    (hk1 : 0 < k.MAX_BL_SCALE_LEVEL) (hk2 : 0 < k.MAX_SV_BL_SCALE_LEVEL)
    (hs : bl.bl_scale = k.MAX_BL_SCALE_LEVEL) (hsv : bl.bl_scale_sv = k.MAX_SV_BL_SCALE_LEVEL)
    (hmin : effective_min bl ≤ bl.bl_max_level) (hui : 1 < bl.brightness_max_level) :
    level_formula k bl bl.brightness_max_level = bl.bl_max_level := by
  have ht : scaled_brightness k bl bl.brightness_max_level = bl.brightness_max_level := by
    unfold scaled_brightness
    rw [hs, hsv, Nat.mul_div_cancel _ hk1, Nat.mul_div_cancel _ hk2]
  unfold level_formula
  rw [ht, if_neg (by omega : ¬ bl.brightness_max_level = 0), if_pos hui,
    Nat.mul_add_div (by omega : 0 < bl.brightness_max_level - 1),
    Nat.div_eq_of_lt (Nat.div_lt_self (by omega) (by norm_num))]
  omega

/-! ## Level scaler: range, full scale, monotonicity -/

/-- C1 (amended): for every well-typed config (`u32` limits, full-scale
constants positive and at most `2 ^ 16`) whose device range is not empty
(`effective_min bl ≤ bl_max_level`, which excludes `bl_min_level =
bl_max_level = 0`), scale factors at most their full scale and every `int`
brightness with `0 < brightness ≤ brightness_max_level`,
`dsi_backlight_calculate` returns a level in `[effective_min bl,
bl_max_level]`. -/
theorem dsi_backlight_calculate_in_range (k : bl_scale_consts) (bl : dsi_backlight_config)
    (brightness : Int) (hw : well_typed k bl)
    (hs : bl.bl_scale ≤ k.MAX_BL_SCALE_LEVEL) (hsv : bl.bl_scale_sv ≤ k.MAX_SV_BL_SCALE_LEVEL)
    (hmin : effective_min bl ≤ bl.bl_max_level)
    (hb0 : 0 < brightness) (hb : brightness ≤ (bl.brightness_max_level : Int))
    (hb31 : brightness < 2147483648) :
    ∃ lvl, dsi_backlight_calculate k bl brightness = some lvl ∧
      effective_min bl ≤ lvl ∧ lvl ≤ bl.bl_max_level := by
  lift brightness to Nat using le_of_lt hb0
  have hb0' : 0 < brightness := by exact_mod_cast hb0
  have hb' : brightness ≤ bl.brightness_max_level := by exact_mod_cast hb
  have hb31' : brightness < 2147483648 := by exact_mod_cast hb31
  exact ⟨level_wrapped k bl brightness,
    calculate_eq_wrapped k bl brightness hw hs hsv hmin hb0' hb' hb31',
    level_wrapped_bounds k bl brightness hs hsv hmin hb0' hb'⟩

/-- C1, witness: limits `0 .. 4095`, UI range `255`, brightness `128`. -/
theorem dsi_backlight_calculate_in_range_witness :
    well_typed example_consts (example_config 0 4095 255) ∧
    effective_min (example_config 0 4095 255) ≤ (example_config 0 4095 255).bl_max_level ∧
    ∃ lvl, dsi_backlight_calculate example_consts (example_config 0 4095 255) 128 = some lvl ∧
      effective_min (example_config 0 4095 255) ≤ lvl ∧
      lvl ≤ (example_config 0 4095 255).bl_max_level :=
  ⟨by decide, by decide,
    dsi_backlight_calculate_in_range example_consts (example_config 0 4095 255) 128
      (by decide) (by decide) (by decide) (by decide) (by decide) (by decide) (by decide)⟩

/-- C1 as stated fails: with `bl_min_level = bl_max_level = 0` (so
`maxLevel ≥ minLevel ≥ 0`), full-scale factors and brightness `1` of `255`,
the result is `1 = effective_min`, above `bl_max_level = 0`. -/
theorem dsi_backlight_calculate_in_range_counterexample :
    (example_config 0 0 255).bl_min_level ≤ (example_config 0 0 255).bl_max_level ∧
    (example_config 0 0 255).bl_scale ≤ example_consts.MAX_BL_SCALE_LEVEL ∧
    (example_config 0 0 255).bl_scale_sv ≤ example_consts.MAX_SV_BL_SCALE_LEVEL ∧
    (0 : Int) < 1 ∧ (1 : Int) ≤ ((example_config 0 0 255).brightness_max_level : Int) ∧
    dsi_backlight_calculate example_consts (example_config 0 0 255) 1 = some 1 ∧
    ¬ (1 ≤ (example_config 0 0 255).bl_max_level) := by
  decide

/-- C2 (amended): for every config with `brightness_max_level > 1`, a device
range that is not empty and 32-bit arithmetic that does not wrap around
(`no_wrap`), with both scale factors at full scale,
`dsi_backlight_calculate` maps `brightness_max_level` to exactly
`bl_max_level`. -/
theorem dsi_backlight_calculate_full_scale (k : bl_scale_consts) (bl : dsi_backlight_config)
    (hw : no_wrap k bl)
    (hs : bl.bl_scale = k.MAX_BL_SCALE_LEVEL) (hsv : bl.bl_scale_sv = k.MAX_SV_BL_SCALE_LEVEL)
    (hmin : effective_min bl ≤ bl.bl_max_level) (hui : 1 < bl.brightness_max_level)
    (hui31 : bl.brightness_max_level < 2147483648) :
    dsi_backlight_calculate k bl (bl.brightness_max_level : Int) = some bl.bl_max_level := by
  rw [calculate_eq_formula k bl bl.brightness_max_level hw (le_of_eq hs) (le_of_eq hsv) hmin
    (le_refl _) hui31,
    level_formula_full_scale k bl hw.1.1 hw.1.2.2.1 hs hsv hmin hui]

/-- C2, witness: limits `0 .. 4095`, UI range `255`. -/
theorem dsi_backlight_calculate_full_scale_witness :
    no_wrap example_consts (example_config 0 4095 255) ∧
    dsi_backlight_calculate example_consts (example_config 0 4095 255) 255 = some 4095 :=
  ⟨by decide, dsi_backlight_calculate_full_scale example_consts (example_config 0 4095 255)
    (by decide) (by decide) (by decide) (by decide) (by decide) (by decide)⟩

/-- C2 as stated fails: with `brightness_max_level = 1` (so `maxUiLevel >
0`), limits `0 .. 4095` and full-scale factors, brightness `1` is not above
the guard `bl_temp > 1` and the result is `1`, not `bl_max_level = 4095`. -/
theorem dsi_backlight_calculate_full_scale_counterexample :
    (example_config 0 4095 1).bl_min_level ≤ (example_config 0 4095 1).bl_max_level ∧
    0 < (example_config 0 4095 1).brightness_max_level ∧
    (example_config 0 4095 1).bl_scale = example_consts.MAX_BL_SCALE_LEVEL ∧
    (example_config 0 4095 1).bl_scale_sv = example_consts.MAX_SV_BL_SCALE_LEVEL ∧
    dsi_backlight_calculate example_consts (example_config 0 4095 1)
      ((example_config 0 4095 1).brightness_max_level : Int) = some 1 ∧
    (1 : Nat) ≠ (example_config 0 4095 1).bl_max_level := by
  decide

/-- The other two conditions of the amended C2 are needed as well: an empty
device range (`bl_min_level = bl_max_level = 0`) gives `16909320` for
brightness `255` of `255`, and limits `0 .. 4294967295` with UI range `65536`
wrap around and give `65536`. -/
theorem calculate_full_scale_needs_conditions :
    dsi_backlight_calculate example_consts (example_config 0 0 255) 255 = some 16909320 ∧
    dsi_backlight_calculate example_consts (example_config 0 4294967295 65536) 65536
      = some 65536 := by
  decide

/-- C3 (amended): for every config with a device range that is not empty and
32-bit arithmetic that does not wrap around (`no_wrap`), fixed scale factors
at most their full scale, and every pair of `int` brightness values
`0 ≤ b1 ≤ b2 ≤ brightness_max_level`, `dsi_backlight_calculate` gives
`b1` a level no larger than the level of `b2`. -/
theorem dsi_backlight_calculate_mono (k : bl_scale_consts) (bl : dsi_backlight_config)
    (b1 b2 : Int) (hw : no_wrap k bl)
    (hs : bl.bl_scale ≤ k.MAX_BL_SCALE_LEVEL) (hsv : bl.bl_scale_sv ≤ k.MAX_SV_BL_SCALE_LEVEL)
    (hmin : effective_min bl ≤ bl.bl_max_level)
    (h0 : 0 ≤ b1) (h12 : b1 ≤ b2) (h2 : b2 ≤ (bl.brightness_max_level : Int))
    (h31 : b2 < 2147483648) :
    ∃ l1 l2, dsi_backlight_calculate k bl b1 = some l1 ∧
      dsi_backlight_calculate k bl b2 = some l2 ∧ l1 ≤ l2 := by
  lift b2 to Nat using le_trans h0 h12
  lift b1 to Nat using h0
  have h12' : b1 ≤ b2 := by exact_mod_cast h12
  have h2' : b2 ≤ bl.brightness_max_level := by exact_mod_cast h2
  have h31' : b2 < 2147483648 := by exact_mod_cast h31
  exact ⟨_, _,
    calculate_eq_formula k bl b1 hw hs hsv hmin (le_trans h12' h2') (by omega),
    calculate_eq_formula k bl b2 hw hs hsv hmin h2' h31',
    level_formula_mono k bl h12'⟩

/-- C3, witness: limits `0 .. 4095`, UI range `255`, brightness `100` and
`128`. -/
theorem dsi_backlight_calculate_mono_witness :
    no_wrap example_consts (example_config 0 4095 255) ∧
    ∃ l1 l2, dsi_backlight_calculate example_consts (example_config 0 4095 255) 100 = some l1 ∧
      dsi_backlight_calculate example_consts (example_config 0 4095 255) 128 = some l2 ∧
      l1 ≤ l2 :=
  ⟨by decide, dsi_backlight_calculate_mono example_consts (example_config 0 4095 255) 100 128
    (by decide) (by decide) (by decide) (by decide) (by decide) (by decide) (by decide)
    (by decide)⟩

/-- C3 as stated fails: with `bl_min_level = bl_max_level = 0` the range
`bl_max_level - 1` is negative, the unsigned rounding division wraps, and
brightness `129` gives `16909321` while brightness `255` gives `16909320`. -/
theorem dsi_backlight_calculate_mono_counterexample :
    (example_config 0 0 255).bl_min_level ≤ (example_config 0 0 255).bl_max_level ∧
    1 < (example_config 0 0 255).brightness_max_level ∧
    (example_config 0 0 255).bl_scale ≤ example_consts.MAX_BL_SCALE_LEVEL ∧
    (example_config 0 0 255).bl_scale_sv ≤ example_consts.MAX_SV_BL_SCALE_LEVEL ∧
    (0 : Int) ≤ 129 ∧ (129 : Int) ≤ 255 ∧
    (255 : Int) ≤ ((example_config 0 0 255).brightness_max_level : Int) ∧
    dsi_backlight_calculate example_consts (example_config 0 0 255) 129 = some 16909321 ∧
    dsi_backlight_calculate example_consts (example_config 0 0 255) 255 = some 16909320 ∧
    ¬ (16909321 ≤ 16909320) := by
  decide

/-- The wrap-around condition of the amended C3 is needed as well: with
limits `0 .. 4294967295` and UI range `3`, brightness `2` gives `2147483648`
and brightness `3` gives `2147483647`. -/
theorem calculate_mono_needs_no_wrap :
    dsi_backlight_calculate example_consts (example_config 0 4294967295 3) 2
      = some 2147483648 ∧
    dsi_backlight_calculate example_consts (example_config 0 4294967295 3) 3
      = some 2147483647 := by
  decide

/-! ## Power-state transition -/

theorem testBit_high_false {s i : Nat} (hs : s < 4294967296) (hi : 32 ≤ i) :
    s.testBit i = false := by
  apply Nat.testBit_lt_two_pow
  calc s < 2 ^ 32 := by simpa using hs
    _ ≤ 2 ^ i := Nat.pow_le_pow_right (by norm_num) hi

theorem testBit_mask32 (i : Nat) : (4294967295 : Nat).testBit i = decide (i < 32) := by
  have : (4294967295 : Nat) = 2 ^ 32 - 1 := by norm_num
  rw [this, Nat.testBit_two_pow_sub_one]

theorem testBit_FBBLANK (i : Nat) : BL_CORE_FBBLANK.testBit i = decide (i = 1) := by
  have : BL_CORE_FBBLANK = 2 ^ 1 := by norm_num [BL_CORE_FBBLANK]
  rw [this, Nat.testBit_two_pow]
  simp [eq_comm]

theorem testBit_LP (i : Nat) : BL_STATE_LP.testBit i = decide (i = 31) := by
  have : BL_STATE_LP = 2 ^ 31 := by norm_num [BL_STATE_LP]
  rw [this, Nat.testBit_two_pow]
  simp [eq_comm]

theorem testBit_LP2 (i : Nat) : BL_STATE_LP2.testBit i = decide (i = 30) := by
  have : BL_STATE_LP2 = 2 ^ 30 := by norm_num [BL_STATE_LP2]
  rw [this, Nat.testBit_two_pow]
  simp [eq_comm]

theorem testBit_sign_bits (i : Nat) :
    (18446744069414584320 : Nat).testBit i = decide (32 ≤ i ∧ i < 64) := by
  have : (18446744069414584320 : Nat) = (2 ^ 32 - 1) <<< 32 := by
    rw [Nat.shiftLeft_eq]
    norm_num
  rw [this, Nat.testBit_shiftLeft, Nat.testBit_two_pow_sub_one]
  by_cases h : 32 ≤ i
  · have h2 : (i - 32 < 32) = (i < 64) := by
      apply propext
      omega
    simp [h, h2]
  · have h3 : ¬ i ≥ 32 := h
    simp [h]

/-- The bits of an `int` converted to `unsigned long`: its own bits, and its
sign bit in the positions 32 to 63. -/
theorem testBit_int_to_ulong (m i : Nat) :
    (int_to_ulong m).testBit i
      = (m.testBit i || (m.testBit 31 && decide (32 ≤ i ∧ i < 64))) := by
  unfold int_to_ulong
  by_cases h : m.testBit 31 = true
  · rw [if_pos h, Nat.testBit_lor, testBit_sign_bits, h]
    simp
  · rw [if_neg h]
    simp [h]

theorem testBit_mod32 (x i : Nat) :
    (x % 4294967296).testBit i = (decide (i < 32) && x.testBit i) := by
  have : (4294967296 : Nat) = 2 ^ 32 := by norm_num
  rw [this, Nat.testBit_mod_two_pow]

/-- The bits of what `get_state_after_dpms` returns, for each of the four
directives and every bit position. -/
theorem get_state_after_dpms_testBit (props : backlight_properties) (i : Nat) :
    (get_state_after_dpms props power_mode.SDE_MODE_DPMS_ON).testBit i
      = (props.state.testBit i && decide (i < 30) && decide (i ≠ 1)) ∧
    (get_state_after_dpms props power_mode.SDE_MODE_DPMS_OFF).testBit i
      = (decide (i = 1) || (props.state.testBit i && decide (i < 30))) ∧
    (get_state_after_dpms props power_mode.SDE_MODE_DPMS_LP1).testBit i
      = (decide (31 ≤ i ∧ i < 64) || (props.state.testBit i && decide (i < 30))) ∧
    (get_state_after_dpms props power_mode.SDE_MODE_DPMS_LP2).testBit i
      = (decide (30 ≤ i ∧ i < 64) || props.state.testBit i) := by
  simp only [get_state_after_dpms, bit_not, testBit_int_to_ulong, Nat.testBit_land,
    Nat.testBit_lor, Nat.testBit_xor, testBit_mask32, testBit_FBBLANK, testBit_LP, testBit_LP2]
  cases props.state.testBit i <;>
    by_cases h29 : i < 30 <;> by_cases h32 : i < 32 <;> by_cases h64 : i < 64 <;>
    by_cases h1 : i = 1 <;> by_cases h30 : i = 30 <;> by_cases h31 : i = 31 <;>
    first
    | omega
    | (have g30 : 30 ≤ i := by omega
       have g31 : 31 ≤ i := by omega
       have g32 : 32 ≤ i := by omega
       simp [h29, h32, h64, h1, h30, h31, g30, g31, g32])
    | (have g30 : 30 ≤ i := by omega
       have g31 : 31 ≤ i := by omega
       have g32 : ¬ 32 ≤ i := by omega
       simp [h29, h32, h64, h1, h30, h31, g30, g31, g32])
    | (have g30 : 30 ≤ i := by omega
       have g31 : ¬ 31 ≤ i := by omega
       have g32 : ¬ 32 ≤ i := by omega
       simp [h29, h32, h64, h1, h30, h31, g30, g31, g32])
    | (have g30 : ¬ 30 ≤ i := by omega
       have g31 : ¬ 31 ≤ i := by omega
       have g32 : ¬ 32 ≤ i := by omega
       simp [h29, h32, h64, h1, h30, h31, g30, g31, g32])

/-- C4: for every 32-bit state word `s` and every bit position `i` of it
(`i < 32`), the value returned by `get_state_after_dpms` has, at `i`: for On,
the bit of `s` with bits 1 (Blanked), 30 (LowPower2) and 31 (LowPower1)
cleared; for Off, the bit of `s` with bits 30 and 31 cleared and bit 1 set;
for EnterLP1, the bit of `s` with bit 31 set and bit 30 cleared; for
EnterLP2, the bit of `s` with bits 30 and 31 set.  Every other bit of `s` is
unchanged; EnterLP1 and EnterLP2 leave bit 1 as it was.  The state word that
is stored from the returned value, its low 32 bits, is described by the same
equations at every bit position. -/
theorem get_state_after_dpms_bits (props : backlight_properties)
    (hs : props.state < 4294967296) (i : Nat) :
    (i < 32 →
      (get_state_after_dpms props power_mode.SDE_MODE_DPMS_ON).testBit i
        = (props.state.testBit i && decide (i ≠ 1) && decide (i ≠ 30) && decide (i ≠ 31)) ∧
      (get_state_after_dpms props power_mode.SDE_MODE_DPMS_OFF).testBit i
        = (decide (i = 1) || (props.state.testBit i && decide (i ≠ 30) && decide (i ≠ 31))) ∧
      (get_state_after_dpms props power_mode.SDE_MODE_DPMS_LP1).testBit i
        = (decide (i = 31) || (props.state.testBit i && decide (i ≠ 30))) ∧
      (get_state_after_dpms props power_mode.SDE_MODE_DPMS_LP2).testBit i
        = (decide (i = 30) || decide (i = 31) || props.state.testBit i)) ∧
    ((get_state_after_dpms props power_mode.SDE_MODE_DPMS_ON % 4294967296).testBit i
        = (props.state.testBit i && decide (i ≠ 1) && decide (i ≠ 30) && decide (i ≠ 31)) ∧
      (get_state_after_dpms props power_mode.SDE_MODE_DPMS_OFF % 4294967296).testBit i
        = (decide (i = 1) || (props.state.testBit i && decide (i ≠ 30) && decide (i ≠ 31))) ∧
      (get_state_after_dpms props power_mode.SDE_MODE_DPMS_LP1 % 4294967296).testBit i
        = (decide (i = 31) || (props.state.testBit i && decide (i ≠ 30))) ∧
      (get_state_after_dpms props power_mode.SDE_MODE_DPMS_LP2 % 4294967296).testBit i
        = (decide (i = 30) || decide (i = 31) || props.state.testBit i)) := by
  have h := get_state_after_dpms_testBit props i
  have key : ∀ j : Nat, j < 32 →
      (props.state.testBit j && decide (j < 30) && decide (j ≠ 1))
        = (props.state.testBit j && decide (j ≠ 1) && decide (j ≠ 30) && decide (j ≠ 31)) ∧
      (decide (j = 1) || (props.state.testBit j && decide (j < 30)))
        = (decide (j = 1) || (props.state.testBit j && decide (j ≠ 30) && decide (j ≠ 31))) ∧
      (decide (31 ≤ j ∧ j < 64) || (props.state.testBit j && decide (j < 30)))
        = (decide (j = 31) || (props.state.testBit j && decide (j ≠ 30))) ∧
      (decide (30 ≤ j ∧ j < 64) || props.state.testBit j)
        = (decide (j = 30) || decide (j = 31) || props.state.testBit j) := by
    intro j hj
    cases props.state.testBit j <;>
      by_cases h29 : j < 30 <;> by_cases h30 : j = 30 <;> by_cases h31 : j = 31 <;>
      by_cases h1 : j = 1 <;>
      first
      | omega
      | (have g30 : 30 ≤ j := by omega
         have g31 : 31 ≤ j := by omega
         have g64 : j < 64 := by omega
         simp [h29, h30, h31, h1, g30, g31, g64])
      | (have g30 : 30 ≤ j := by omega
         have g31 : ¬ 31 ≤ j := by omega
         have g64 : j < 64 := by omega
         simp [h29, h30, h31, h1, g30, g31, g64])
      | (have g30 : ¬ 30 ≤ j := by omega
         have g31 : ¬ 31 ≤ j := by omega
         have g64 : j < 64 := by omega
         simp [h29, h30, h31, h1, g30, g31, g64])
  constructor
  · intro hi
    have k := key i hi
    exact ⟨h.1.trans k.1, h.2.1.trans k.2.1, h.2.2.1.trans k.2.2.1, h.2.2.2.trans k.2.2.2⟩
  · simp only [testBit_mod32]
    by_cases hi : i < 32
    · have k := key i hi
      simp only [hi, decide_True, Bool.true_and]
      exact ⟨h.1.trans k.1, h.2.1.trans k.2.1, h.2.2.1.trans k.2.2.1, h.2.2.2.trans k.2.2.2⟩
    · have hb := testBit_high_false hs (Nat.le_of_not_lt hi)
      have h1 : i ≠ 1 := by omega
      have h30 : i ≠ 30 := by omega
      have h31 : i ≠ 31 := by omega
      simp [hi, hb, h1, h30, h31]

/-- C4, witness: the state word with Blanked, LowPower1 and LowPower2 set,
looked at in bit 1; EnterLP2 from the normal state `0` stores the state word
with LowPower1 and LowPower2 set, and On from LowPower1 and LowPower2 gives
the normal state. -/
theorem get_state_after_dpms_bits_witness :
    get_state_after_dpms (example_props 128 0) power_mode.SDE_MODE_DPMS_LP2 % 4294967296
      = BL_STATE_LP ||| BL_STATE_LP2 ∧
    get_state_after_dpms (example_props 128 (BL_STATE_LP ||| BL_STATE_LP2))
      power_mode.SDE_MODE_DPMS_ON = 0 ∧
    (example_props 128 3221225474).state < 4294967296 ∧
    ((1 < 32 →
      (get_state_after_dpms (example_props 128 3221225474) power_mode.SDE_MODE_DPMS_ON).testBit 1
        = ((example_props 128 3221225474).state.testBit 1 && decide (1 ≠ 1) && decide (1 ≠ 30)
            && decide (1 ≠ 31)) ∧
      (get_state_after_dpms (example_props 128 3221225474) power_mode.SDE_MODE_DPMS_OFF).testBit 1
        = (decide (1 = 1) || ((example_props 128 3221225474).state.testBit 1 && decide (1 ≠ 30)
            && decide (1 ≠ 31))) ∧
      (get_state_after_dpms (example_props 128 3221225474) power_mode.SDE_MODE_DPMS_LP1).testBit 1
        = (decide (1 = 31) || ((example_props 128 3221225474).state.testBit 1
            && decide (1 ≠ 30))) ∧
      (get_state_after_dpms (example_props 128 3221225474) power_mode.SDE_MODE_DPMS_LP2).testBit 1
        = (decide (1 = 30) || decide (1 = 31)
            || (example_props 128 3221225474).state.testBit 1)) ∧
    ((get_state_after_dpms (example_props 128 3221225474) power_mode.SDE_MODE_DPMS_ON
          % 4294967296).testBit 1
        = ((example_props 128 3221225474).state.testBit 1 && decide (1 ≠ 1) && decide (1 ≠ 30)
            && decide (1 ≠ 31)) ∧
      (get_state_after_dpms (example_props 128 3221225474) power_mode.SDE_MODE_DPMS_OFF
          % 4294967296).testBit 1
        = (decide (1 = 1) || ((example_props 128 3221225474).state.testBit 1 && decide (1 ≠ 30)
            && decide (1 ≠ 31))) ∧
      (get_state_after_dpms (example_props 128 3221225474) power_mode.SDE_MODE_DPMS_LP1
          % 4294967296).testBit 1
        = (decide (1 = 31) || ((example_props 128 3221225474).state.testBit 1
            && decide (1 ≠ 30))) ∧
      (get_state_after_dpms (example_props 128 3221225474) power_mode.SDE_MODE_DPMS_LP2
          % 4294967296).testBit 1
        = (decide (1 = 30) || decide (1 = 31)
            || (example_props 128 3221225474).state.testBit 1))) :=
  ⟨by decide, by decide, by decide,
    get_state_after_dpms_bits (example_props 128 3221225474) (by decide) 1⟩

/-- What `get_state_after_dpms` returns above the state word: for a 32-bit
state word, bits 32 and up are clear after On and Off, and bits 32 to 63 are
set after EnterLP1 and EnterLP2, the sign extension of the `int` mask
`1 << 31`.  EnterLP2 from the normal state `0` returns
`0xffffffffc0000000`. -/
theorem return_value_sign_extension (props : backlight_properties)
    (hs : props.state < 4294967296) (i : Nat) (hi : 32 ≤ i) :
    (get_state_after_dpms props power_mode.SDE_MODE_DPMS_ON).testBit i = false ∧
    (get_state_after_dpms props power_mode.SDE_MODE_DPMS_OFF).testBit i = false ∧
    (get_state_after_dpms props power_mode.SDE_MODE_DPMS_LP1).testBit i = decide (i < 64) ∧
    (get_state_after_dpms props power_mode.SDE_MODE_DPMS_LP2).testBit i = decide (i < 64) ∧
    get_state_after_dpms (example_props 128 0) power_mode.SDE_MODE_DPMS_LP2
      = 18446744072635809792 ∧
    get_state_after_dpms (example_props 128 0) power_mode.SDE_MODE_DPMS_LP1
      = 18446744071562067968 := by
  have h := get_state_after_dpms_testBit props i
  have hb := testBit_high_false hs hi
  have h1 : i ≠ 1 := by omega
  have h29 : ¬ i < 30 := by omega
  have g30 : 30 ≤ i := by omega
  have g31 : 31 ≤ i := by omega
  refine ⟨?_, ?_, ?_, ?_, by decide, by decide⟩
  · rw [h.1, hb]
    simp
  · rw [h.2.1, hb]
    simp [h1]
  · rw [h.2.2.1, hb]
    simp [g31]
  · rw [h.2.2.2, hb]
    simp [g30]
/-! ## Binned low-power modes: lookup and table construction -/

/-- C5: for every table in ascending order of threshold and every
brightness, the selection loop of `dsi_panel_binned_bl_update` selects
nothing when the state is not a low-power state; in a low-power state it
selects exactly the first node whose threshold is at least the brightness
(every node before it has a smaller threshold), that node has the least
threshold among the nodes whose threshold is at least the brightness, and
nothing is selected exactly when the brightness exceeds every threshold.  The
brightness is compared as the `u32` value of `props.brightness`, which is the
brightness itself for every non-negative brightness.  For the table
`[dim:50, medium:150, bright:MAX]`, `30` selects `dim`, `100` selects
`medium` and `9999` selects `bright`. -/
theorem binned_lp_select_first_match (props : backlight_properties)
    (mode_list : List binned_lp_node)
    (hsorted : mode_list.Pairwise (fun a b => a.bl_threshold ≤ b.bl_threshold)) :
    (is_lp_mode props.state = false → binned_lp_select props mode_list = none) ∧
    (is_lp_mode props.state = true →
      (∀ node, binned_lp_select props mode_list = some node ↔
        (to_u32 props.brightness ≤ node.bl_threshold ∧
          ∃ before after, mode_list = before ++ node :: after ∧
            ∀ m ∈ before, m.bl_threshold < to_u32 props.brightness)) ∧
      (∀ node, binned_lp_select props mode_list = some node →
        ∀ m ∈ mode_list, to_u32 props.brightness ≤ m.bl_threshold →
          node.bl_threshold ≤ m.bl_threshold) ∧
      (binned_lp_select props mode_list = none ↔
        ∀ m ∈ mode_list, m.bl_threshold < to_u32 props.brightness)) ∧
    (∀ b : Nat, b < 4294967296 → to_u32 (b : Int) = b) ∧
    binned_lp_select (example_props 30 BL_STATE_LP) example_table = some example_dim ∧
    binned_lp_select (example_props 100 BL_STATE_LP) example_table = some example_medium ∧
    binned_lp_select (example_props 9999 BL_STATE_LP) example_table = some example_bright := by
  refine ⟨?_, ?_, to_u32_natCast, by decide, by decide, by decide⟩
  · intro h
    unfold binned_lp_select
    rw [h]
    rfl
  · intro h
    have hfirst : ∀ node, binned_lp_select props mode_list = some node ↔
        (to_u32 props.brightness ≤ node.bl_threshold ∧
          ∃ before after, mode_list = before ++ node :: after ∧
            ∀ m ∈ before, m.bl_threshold < to_u32 props.brightness) := by
      intro node
      unfold binned_lp_select
      rw [h, if_pos rfl, List.find?_eq_some]
      simp only [decide_eq_true_eq, Bool.not_eq_true', decide_eq_false_iff_not, not_le]
    refine ⟨hfirst, ?_, ?_⟩
    · intro node hnode m hm hbm
      obtain ⟨_, before, after, hsplit, hbefore⟩ := (hfirst node).mp hnode
      rw [hsplit] at hm hsorted
      rw [List.pairwise_append, List.pairwise_cons] at hsorted
      rcases List.mem_append.mp hm with h1 | h2
      · exact absurd (hbefore m h1) (by omega)
      · rcases List.mem_cons.mp h2 with h3 | h4
        · rw [h3]
        · exact hsorted.2.1.1 m h4
    · unfold binned_lp_select
      rw [h, if_pos rfl, List.find?_eq_none]
      simp only [decide_eq_true_eq, not_le]

/-- C5, witness: the table `[dim:50, medium:150, bright:MAX]` is in ascending
order, and in LowPower1 with brightness `100` the node selected, `medium`,
has a threshold no larger than that of `bright`. -/
theorem binned_lp_select_first_match_witness :
    example_table.Pairwise (fun a b => a.bl_threshold ≤ b.bl_threshold) ∧
    example_medium.bl_threshold ≤ example_bright.bl_threshold :=
  ⟨by decide,
    ((binned_lp_select_first_match (example_props 100 BL_STATE_LP) example_table
      (by decide)).2.1 (by decide)).2.1 example_medium (by decide) example_bright (by decide)
      (by decide)⟩

/-- C6, at the failing input: the declared profiles `{missing, 150, 50}` are
accepted, and the table `list_sort` leaves has the thresholds in the order
`[UINT_MAX, 50, 150]`: the comparator returns the `u32` difference as `int`,
so `UINT_MAX` against `50` gives `-51` and the profile without a threshold
sorts first.  In LowPower1 with brightness `30` the table then selects
`bright`. -/
theorem dsi_panel_binned_lp_register_sort_order :
    (dsi_panel_binned_lp_register true (some example_children) (example_config 0 4095 255)).1 = 0 ∧
    ((dsi_panel_binned_lp_register true (some example_children)
        (example_config 0 4095 255)).2.priv.map
      (fun lp_data => lp_data.mode_list.map binned_lp_node.bl_threshold))
      = some [4294967295, 50, 150] ∧
    _dsi_panel_binned_bl_cmp example_bright example_dim = -51 ∧
    ((dsi_panel_binned_lp_register true (some example_children)
        (example_config 0 4095 255)).2.priv.map
      (fun lp_data => (binned_lp_select (example_props 30 BL_STATE_LP) lp_data.mode_list).map
        binned_lp_node.name)) = some (some "bright") := by
  decide

theorem binned_lp_parse_loop_error_ne_zero (children : List lp_mode_child) :
    ∀ (lp_node : Nat) (mode_list : List binned_lp_node) (rc e : Int),
      binned_lp_parse_loop children lp_node mode_list rc = .error e → e ≠ 0 := by
  induction children with
  | nil =>
    intro lp_node mode_list rc e h
    simp [binned_lp_parse_loop] at h
  | cons c rest ih =>
    intro lp_node mode_list rc e h
    unfold binned_lp_parse_loop at h
    simp only [] at h
    split at h
    · rename_i hrc
      injection h with h
      rw [← h]
      exact hrc
    · split at h
      · injection h with h
        rw [← h]
        decide
      · exact ih _ _ _ _ h

theorem binned_lp_parse_loop_parse_failure (children : List lp_mode_child)
    (hfail : ∃ c ∈ children, c.cmd_rc ≠ 0) :
    ∀ (lp_node : Nat) (mode_list : List binned_lp_node) (rc : Int),
      ∃ e, binned_lp_parse_loop children lp_node mode_list rc = .error e := by
  induction children with
  | nil =>
    obtain ⟨c, hc, _⟩ := hfail
    simp at hc
  | cons c rest ih =>
    intro lp_node mode_list rc
    unfold binned_lp_parse_loop
    simp only []
    split
    · exact ⟨_, rfl⟩
    · rename_i hrc
      split
      · exact ⟨_, rfl⟩
      · apply ih
        obtain ⟨c', hc', hne⟩ := hfail
        rcases List.mem_cons.mp hc' with h1 | h2
        · subst h1
          exfalso
          apply hrc
          unfold _dsi_panel_binned_lp_parse
          simp [hne]
        · exact ⟨c', h2, hne⟩

/-- C7: for a declared profile list of size `0`, for every declared list
of more than `MAX_BINNED_BL_MODES = 10` profiles, and for every declared list
in which some profile's command payload fails to parse,
`dsi_panel_binned_lp_register` returns an error and leaves the config as it
was: `update_bl`, `unregister` and `priv` are unchanged. -/
theorem dsi_panel_binned_lp_register_rejects (kzalloc_ok : Bool)
    (children : List lp_mode_child) (bl : dsi_backlight_config)
    (h : children.length = 0 ∨ children.length > MAX_BINNED_BL_MODES ∨
      ∃ c ∈ children, c.cmd_rc ≠ 0) :
    (dsi_panel_binned_lp_register kzalloc_ok (some children) bl).1 ≠ 0 ∧
    (dsi_panel_binned_lp_register kzalloc_ok (some children) bl).2 = bl ∧
    (dsi_panel_binned_lp_register kzalloc_ok (some children) bl).2.update_bl = bl.update_bl ∧
    (dsi_panel_binned_lp_register kzalloc_ok (some children) bl).2.unregister = bl.unregister ∧
    (dsi_panel_binned_lp_register kzalloc_ok (some children) bl).2.priv = bl.priv := by
  have key : (dsi_panel_binned_lp_register kzalloc_ok (some children) bl).1 ≠ 0 ∧
      (dsi_panel_binned_lp_register kzalloc_ok (some children) bl).2 = bl := by
    unfold dsi_panel_binned_lp_register
    cases kzalloc_ok with
    | false => exact ⟨by simp [ENOMEM], rfl⟩
    | true =>
      simp only [Bool.not_true, Bool.false_eq_true, if_false]
      by_cases hn : children.length = 0 ∨ children.length > MAX_BINNED_BL_MODES
      · rw [if_pos hn]
        exact ⟨by simp [ENOTSUPP], rfl⟩
      · rw [if_neg hn]
        have hfail : ∃ c ∈ children, c.cmd_rc ≠ 0 := by
          rcases h with h | h | h
          · exact absurd (Or.inl h) hn
          · exact absurd (Or.inr h) hn
          · exact h
        obtain ⟨e, he⟩ := binned_lp_parse_loop_parse_failure children hfail 0 [] (-ENOTSUPP)
        rw [he]
        exact ⟨binned_lp_parse_loop_error_ne_zero children 0 [] (-ENOTSUPP) e he, rfl⟩
  refine ⟨key.1, key.2, ?_, ?_, ?_⟩ <;> rw [key.2]

/-- C7, witness: eleven profiles that parse. -/
theorem dsi_panel_binned_lp_register_rejects_witness :
    (List.replicate 11 (example_child (some 50) "dim" 1)).length > MAX_BINNED_BL_MODES ∧
    (dsi_panel_binned_lp_register true (some (List.replicate 11 (example_child (some 50) "dim" 1)))
      (example_config 0 4095 255)).1 ≠ 0 ∧
    (dsi_panel_binned_lp_register true (some (List.replicate 11 (example_child (some 50) "dim" 1)))
      (example_config 0 4095 255)).2.priv = (example_config 0 4095 255).priv :=
  ⟨by decide,
    (dsi_panel_binned_lp_register_rejects true (List.replicate 11 (example_child (some 50) "dim" 1))
      (example_config 0 4095 255) (Or.inr (Or.inl (by decide)))).1,
    (dsi_panel_binned_lp_register_rejects true (List.replicate 11 (example_child (some 50) "dim" 1))
      (example_config 0 4095 255) (Or.inr (Or.inl (by decide)))).2.2.2.2⟩

/-- C8, at the failing input: ten profiles whose command payloads all parse
are rejected with `-ENOTSUPP` and nothing is registered (the check made after
each parsed profile fires once the tenth pool entry is used), while nine such
profiles are accepted. -/
theorem dsi_panel_binned_lp_register_ten_modes :
    (List.replicate 10 (example_child (some 50) "dim" 1)).length = 10 ∧
    (∀ c ∈ List.replicate 10 (example_child (some 50) "dim" 1), c.cmd_rc = 0) ∧
    dsi_panel_binned_lp_register true
      (some (List.replicate 10 (example_child (some 50) "dim" 1))) (example_config 0 4095 255)
      = (-ENOTSUPP, example_config 0 4095 255) ∧
    (dsi_panel_binned_lp_register true
      (some (List.replicate 9 (example_child (some 50) "dim" 1))) (example_config 0 4095 255)).1
      = 0 := by
  decide

theorem binned_lp_parse_loop_all_parse (children : List lp_mode_child)
    (hall : ∀ c ∈ children, c.cmd_rc = 0) :
    ∀ (lp_node : Nat) (mode_list : List binned_lp_node) (rc : Int),
      binned_lp_parse_loop children lp_node mode_list rc =
        if children = [] then .ok (rc, mode_list)
        else if lp_node + children.length > MAX_BINNED_BL_MODES - 1 then .error (-ENOTSUPP)
        else .ok (0, mode_list ++ parsed_nodes children lp_node) := by
  induction children with
  | nil =>
    intro lp_node mode_list rc
    simp [binned_lp_parse_loop]
  | cons c rest ih =>
    intro lp_node mode_list rc
    have hc : c.cmd_rc = 0 := hall c (List.mem_cons_self _ _)
    have hrest : ∀ c' ∈ rest, c'.cmd_rc = 0 := fun c' h => hall c' (List.mem_cons_of_mem _ h)
    have hp : (_dsi_panel_binned_lp_parse c (priv_pool_entry lp_node)).1 = 0 := by
      unfold _dsi_panel_binned_lp_parse
      simp [hc]
    unfold binned_lp_parse_loop
    simp only []
    rw [if_neg (by rw [hp]; simp), if_neg (List.cons_ne_nil _ _), hp]
    by_cases h9 : lp_node + 1 > MAX_BINNED_BL_MODES - 1
    · rw [if_pos h9, if_pos (by simp only [List.length_cons]; omega)]
    · rw [if_neg h9, ih hrest]
      cases rest with
      | nil =>
        simp only [List.length_cons, List.length_nil, if_true]
        rw [if_neg (by omega)]
        simp [parsed_nodes]
      | cons c2 rest2 =>
        rw [if_neg (List.cons_ne_nil _ _)]
        simp only [List.length_cons]
        by_cases hlen : lp_node + 1 + (rest2.length + 1) > MAX_BINNED_BL_MODES - 1
        · rw [if_pos hlen, if_pos (by omega)]
        · rw [if_neg hlen, if_neg (by omega)]
          simp [parsed_nodes]

/-- The counts `dsi_panel_binned_lp_register` accepts: when the allocation
succeeds and every command payload parses, the call returns `0` exactly for
`1` to `9` declared profiles, and then installs the binned update path with
the table `list_sort` makes of the parsed nodes. -/
theorem dsi_panel_binned_lp_register_accepts_iff (children : List lp_mode_child)
    (bl : dsi_backlight_config) (hall : ∀ c ∈ children, c.cmd_rc = 0) :
    ((dsi_panel_binned_lp_register true (some children) bl).1 = 0 ↔
      1 ≤ children.length ∧ children.length ≤ 9) ∧
    (1 ≤ children.length → children.length ≤ 9 →
      (dsi_panel_binned_lp_register true (some children) bl).2 =
        { bl with
          update_bl := update_bl_fn.dsi_panel_binned_bl_update
          unregister := unregister_fn.dsi_panel_bl_free_unregister
          priv := some { mode_list := list_sort _dsi_panel_binned_bl_cmp (parsed_nodes children 0)
                         last_lp_mode := none } }) := by
  have hloop := binned_lp_parse_loop_all_parse children hall 0 [] (-ENOTSUPP)
  unfold dsi_panel_binned_lp_register
  simp only [Bool.not_true, Bool.false_eq_true, if_false]
  by_cases hn : children.length = 0 ∨ children.length > MAX_BINNED_BL_MODES
  · rw [if_pos hn]
    have h10 : MAX_BINNED_BL_MODES = 10 := rfl
    constructor
    · constructor
      · intro h
        simp [ENOTSUPP] at h
      · intro h
        omega
    · intro h1 h9
      omega
  · rw [if_neg hn, hloop]
    have h10 : MAX_BINNED_BL_MODES = 10 := rfl
    have hne : children ≠ [] := by
      intro h
      rw [h] at hn
      simp at hn
    rw [if_neg hne]
    by_cases h9 : 0 + children.length > MAX_BINNED_BL_MODES - 1
    · rw [if_pos h9]
      constructor
      · constructor
        · intro h
          simp [ENOTSUPP] at h
        · intro h
          omega
      · intro h1 h9'
        omega
    · rw [if_neg h9]
      simp only [List.nil_append]
      constructor
      · constructor
        · intro _
          have : children.length ≠ 0 := fun h => hne (List.length_eq_zero.mp h)
          omega
        · intro _
          trivial
      · intro _ _
        trivial

/-! ## Coordinator: repeated requests and dispatch failure -/

theorem calculate_congr (k : bl_scale_consts) (bl bl1 : dsi_backlight_config) (b : Int)
    (h1 : bl1.bl_min_level = bl.bl_min_level) (h2 : bl1.bl_max_level = bl.bl_max_level)
    (h3 : bl1.brightness_max_level = bl.brightness_max_level)
    (h4 : bl1.bl_scale = bl.bl_scale) (h5 : bl1.bl_scale_sv = bl.bl_scale_sv) :
    dsi_backlight_calculate k bl1 b = dsi_backlight_calculate k bl b := by
  unfold dsi_backlight_calculate
  rw [h1, h2, h3, h4, h5]

theorem update_dcs_dispatch_count (hw : hw_env) (bl : dsi_backlight_config) (bl_lvl : Nat) :
    dispatch_count (dsi_backlight_update_dcs hw bl bl_lvl).2 ≤ 1 := by
  unfold dsi_backlight_update_dcs
  split
  · simp [dispatch_count]
  · split
    · simp [dispatch_count]
    · simp [dispatch_count]

/-- What `dsi_panel_binned_bl_update` leaves in the config before it returns
or falls through to the level dispatch. -/
theorem binned_bl_update_cases (hw : hw_env) (bl : dsi_backlight_config)
    (props : backlight_properties) (bl_lvl : Nat) (lp_data : binned_lp_data)
    (hpriv : bl.priv = some lp_data) :
    (∀ n, binned_lp_select props lp_data.mode_list = some n →
      dsi_panel_binned_bl_update hw bl props bl_lvl =
        if some n.slot ≠ lp_data.last_lp_mode then
          some (0, { bl with priv := some { lp_data with last_lp_mode := some n.slot } },
            [hw_event.cmd_set_transfer n.dsi_cmd])
        else some (0, bl, [])) ∧
    (binned_lp_select props lp_data.mode_list = none →
      dsi_panel_binned_bl_update hw bl props bl_lvl =
        if none ≠ lp_data.last_lp_mode then
          some ((dsi_backlight_update_dcs hw
              { bl with priv := some { lp_data with last_lp_mode := none },
                        bl_actual := to_u32 (-1) } bl_lvl).1,
            { bl with priv := some { lp_data with last_lp_mode := none },
                      bl_actual := to_u32 (-1) },
            (dsi_backlight_update_dcs hw
              { bl with priv := some { lp_data with last_lp_mode := none },
                        bl_actual := to_u32 (-1) } bl_lvl).2)
        else some ((dsi_backlight_update_dcs hw bl bl_lvl).1, bl,
          (dsi_backlight_update_dcs hw bl bl_lvl).2)) := by
  constructor
  · intro n hn
    unfold dsi_panel_binned_bl_update
    rw [hpriv]
    simp only [hn, Option.map_some']
    split <;> rfl
  · intro hn
    unfold dsi_panel_binned_bl_update
    rw [hpriv]
    simp only [hn, Option.map_none']
    split <;> simp
/-- What a call of `update_bl` never changes, how many dispatches it makes,
and what it leaves in `bl_actual`. -/
theorem call_update_bl_frame (hw : hw_env) (bl : dsi_backlight_config)
    (props : backlight_properties) (bl_lvl : Nat) (rc : Int) (bl1 : dsi_backlight_config)
    (ev : List hw_event) (h : call_update_bl hw bl props bl_lvl = some (rc, bl1, ev)) :
    bl1.bl_min_level = bl.bl_min_level ∧ bl1.bl_max_level = bl.bl_max_level ∧
    bl1.brightness_max_level = bl.brightness_max_level ∧
    bl1.bl_scale = bl.bl_scale ∧ bl1.bl_scale_sv = bl.bl_scale_sv ∧
    bl1.last_state = bl.last_state ∧ bl1.bl_update_pending = bl.bl_update_pending ∧
    dispatch_count ev ≤ 1 ∧
    (bl.update_bl = update_bl_fn.dsi_backlight_update_dcs → bl1 = bl) ∧
    (rc ≠ 0 → ∀ lp_data, bl.priv = some lp_data →
      bl.update_bl = update_bl_fn.dsi_panel_binned_bl_update →
      (lp_data.last_lp_mode = none → bl1.bl_actual = bl.bl_actual) ∧
      (lp_data.last_lp_mode ≠ none → bl1.bl_actual = to_u32 (-1))) := by
  unfold call_update_bl at h
  split at h
  · exact absurd h (by simp)
  · rename_i hfn
    simp only [Option.some.injEq, Prod.mk.injEq] at h
    obtain ⟨_, hbl, hev⟩ := h
    subst hbl
    subst hev
    refine ⟨rfl, rfl, rfl, rfl, rfl, rfl, rfl, update_dcs_dispatch_count hw bl bl_lvl,
      fun _ => rfl, ?_⟩
    intro _ _ _ hb
    rw [hfn] at hb
    exact absurd hb (by decide)
  · rename_i hfn
    cases hpriv : bl.priv with
    | none =>
      unfold dsi_panel_binned_bl_update at h
      rw [hpriv] at h
      exact absurd h (by simp)
    | some lp_data =>
      have hc := binned_bl_update_cases hw bl props bl_lvl lp_data hpriv
      cases hsel : binned_lp_select props lp_data.mode_list with
      | some n =>
        rw [hc.1 n hsel] at h
        split at h
        · simp only [Option.some.injEq, Prod.mk.injEq] at h
          obtain ⟨hrc, hbl, hev⟩ := h
          subst hbl
          subst hev
          refine ⟨rfl, rfl, rfl, rfl, rfl, rfl, rfl, by simp [dispatch_count], ?_, ?_⟩
          · intro hb
            rw [hfn] at hb
            exact absurd hb (by decide)
          · intro hne
            exact absurd hrc.symm hne
        · simp only [Option.some.injEq, Prod.mk.injEq] at h
          obtain ⟨hrc, hbl, hev⟩ := h
          subst hbl
          subst hev
          refine ⟨rfl, rfl, rfl, rfl, rfl, rfl, rfl, by simp [dispatch_count], fun _ => rfl, ?_⟩
          intro hne
          exact absurd hrc.symm hne
      | none =>
        rw [hc.2 hsel] at h
        split at h
        · rename_i hlast
          simp only [Option.some.injEq, Prod.mk.injEq] at h
          obtain ⟨_, hbl, hev⟩ := h
          subst hbl
          subst hev
          refine ⟨rfl, rfl, rfl, rfl, rfl, rfl, rfl, update_dcs_dispatch_count _ _ _, ?_, ?_⟩
          · intro hb
            rw [hfn] at hb
            exact absurd hb (by decide)
          · intro _ d hd _
            injection hd with hd
            subst hd
            exact ⟨fun h0 => absurd h0.symm hlast, fun _ => rfl⟩
        · rename_i hlast
          simp only [Option.some.injEq, Prod.mk.injEq] at h
          obtain ⟨_, hbl, hev⟩ := h
          subst hbl
          subst hev
          refine ⟨rfl, rfl, rfl, rfl, rfl, rfl, rfl, update_dcs_dispatch_count _ _ _,
            fun _ => rfl, ?_⟩
          intro _ d hd _
          injection hd with hd
          subst hd
          have h0 : lp_data.last_lp_mode = none := by
            by_contra hne
            exact hlast (fun h' => hne h'.symm)
          exact ⟨fun _ => rfl, fun hne => absurd h0 hne⟩

/-- A call whose level and state word are the ones applied last is
suppressed. -/
theorem update_status_suppressed (k : bl_scale_consts) (hw : hw_env)
    (bl : dsi_backlight_config) (props : backlight_properties) (lvl : Nat)
    (hcalc : dsi_backlight_calculate k bl (requested_brightness props) = some lvl)
    (hact : to_u32 (to_int lvl) = bl.bl_actual) (hst : bl.last_state = props.state) :
    dsi_backlight_update_status k hw bl props = some (0, bl, []) := by
  unfold dsi_backlight_update_status
  simp only [hcalc]
  rw [if_pos ⟨hact, hst⟩]
/-- C9 (amended): for every config, state and hardware, when a call of
`dsi_backlight_update_status` returns success, it made at most one hardware
dispatch, and the same request issued again (same properties, the config as
the first call left it, whatever the hardware would answer) returns success
without any dispatch and leaves the config as it was, `bl_actual`,
`last_state` and `bl_update_pending` included: at most one dispatch is made
in total. -/
theorem dsi_backlight_update_status_idempotent (k : bl_scale_consts) (hw hw2 : hw_env)
    (bl : dsi_backlight_config) (props : backlight_properties)
    (bl1 : dsi_backlight_config) (ev1 : List hw_event)
    (h1 : dsi_backlight_update_status k hw bl props = some (0, bl1, ev1)) :
    dsi_backlight_update_status k hw2 bl1 props = some (0, bl1, []) ∧
    dispatch_count (ev1 ++ []) ≤ 1 := by
  unfold dsi_backlight_update_status at h1
  simp only [] at h1
  cases hcalc : dsi_backlight_calculate k bl (requested_brightness props) with
  | none =>
    rw [hcalc] at h1
    exact absurd h1 (by simp)
  | some lvl =>
    rw [hcalc] at h1
    simp only [] at h1
    split at h1
    · rename_i hsup
      simp only [Option.some.injEq, Prod.mk.injEq, true_and] at h1
      obtain ⟨hbl, hev⟩ := h1
      subst hbl
      subst hev
      exact ⟨update_status_suppressed k hw2 bl props lvl hcalc hsup.1 hsup.2,
        by simp [dispatch_count]⟩
    · rename_i hsup
      split at h1
      · rename_i hallow
        simp only [Option.some.injEq, Prod.mk.injEq, true_and] at h1
        obtain ⟨hbl, hev⟩ := h1
        subst hbl
        subst hev
        refine ⟨?_, by simp [dispatch_count]⟩
        have hc := calculate_congr k bl { bl with bl_update_pending := true }
          (requested_brightness props) rfl rfl rfl rfl rfl
        unfold dsi_backlight_update_status
        simp only []
        rw [hc, hcalc]
        simp only []
        rw [if_neg hsup, if_pos hallow]
      · split at h1
        · cases hcall : call_update_bl hw bl props (to_u32 (to_int lvl)) with
          | none =>
            rw [hcall] at h1
            exact absurd h1 (by simp)
          | some r =>
            obtain ⟨rc, b, ev⟩ := r
            rw [hcall] at h1
            simp only [] at h1
            have hf := call_update_bl_frame hw bl props _ rc b ev hcall
            split at h1
            · rename_i hrc
              simp only [Option.some.injEq, Prod.mk.injEq] at h1
              exact absurd h1.1 hrc
            · simp only [Option.some.injEq, Prod.mk.injEq] at h1
              obtain ⟨_, hbl, hev⟩ := h1
              subst hbl
              subst hev
              refine ⟨?_, by simpa using hf.2.2.2.2.2.2.2.1⟩
              refine update_status_suppressed k hw2 _ props lvl ?_ ?_ ?_
              · have hc := calculate_congr k bl
                  { b with bl_update_pending := false, bl_actual := to_u32 (to_int lvl),
                           last_state := props.state }
                  (requested_brightness props) hf.1 hf.2.1 hf.2.2.1 hf.2.2.2.1 hf.2.2.2.2.1
                rw [hc, hcalc]
              · simp only []
              · simp only []
        · simp only [Option.some.injEq, Prod.mk.injEq, true_and] at h1
          obtain ⟨hbl, hev⟩ := h1
          subst hbl
          subst hev
          refine ⟨?_, by simp [dispatch_count]⟩
          have hc := calculate_congr k bl
            { bl with bl_actual := to_u32 (to_int lvl), last_state := props.state }
            (requested_brightness props) rfl rfl rfl rfl rfl
          refine update_status_suppressed k hw2 _ props lvl ?_ ?_ ?_
          · rw [hc, hcalc]
          · simp only []
          · simp only []

/-- C9, witness: brightness `128` with limits `0 .. 4095` on hardware that
accepts every level: the first call dispatches level `2048`, the second
nothing. -/
theorem dsi_backlight_update_status_idempotent_witness :
    dsi_backlight_update_status example_consts { failing_hw with dcs_rc := fun _ _ => 0 }
      (example_config 0 4095 255) (example_props 128 0)
      = some (0, { example_config 0 4095 255 with bl_actual := 2048 },
          [hw_event.dcs_set_display_brightness 2048 2]) ∧
    dsi_backlight_update_status example_consts failing_hw
      { example_config 0 4095 255 with bl_actual := 2048 } (example_props 128 0)
      = some (0, { example_config 0 4095 255 with bl_actual := 2048 }, []) ∧
    dispatch_count ([hw_event.dcs_set_display_brightness 2048 2] ++ []) ≤ 1 :=
  ⟨by decide,
    dsi_backlight_update_status_idempotent example_consts
      { failing_hw with dcs_rc := fun _ _ => 0 } failing_hw (example_config 0 4095 255)
      (example_props 128 0) { example_config 0 4095 255 with bl_actual := 2048 }
      [hw_event.dcs_set_display_brightness 2048 2] (by decide)⟩

/-- C9 as stated fails: on hardware that rejects the level, the same request
issued twice with nothing changed in between dispatches the level twice, and
the second call returns the error `-5`, not success. -/
theorem dsi_backlight_update_status_idempotent_counterexample :
    update_status_twice example_consts failing_hw (example_config 0 4095 255)
      (example_props 128 0)
      = some ((-5, example_config 0 4095 255, [hw_event.dcs_set_display_brightness 2048 2]),
          (-5, example_config 0 4095 255, [hw_event.dcs_set_display_brightness 2048 2])) ∧
    dispatch_count ([hw_event.dcs_set_display_brightness 2048 2] ++
      [hw_event.dcs_set_display_brightness 2048 2]) = 2 := by
  decide

/-- C10 (amended): for every call of `dsi_backlight_update_status` that
reaches the dispatch (the level is computed, the call is not suppressed,
updates are allowed, the panel is initialised) and in which the configured
dispatch returns an error `rc`, the call returns `rc` and `last_state` and
`bl_update_pending` are what they were; with the plain level dispatch the
whole config, `bl_actual` included, is what it was; with the binned dispatch
`bl_actual` is what it was when no profile was active before the call, and is
the sentinel `(u32)-1` when a profile was active. -/
theorem dsi_backlight_update_status_dispatch_failure (k : bl_scale_consts) (hw : hw_env)
    (bl : dsi_backlight_config) (props : backlight_properties) (lvl : Nat) (rc : Int)
    (bl1 : dsi_backlight_config) (ev : List hw_event)
    (hcalc : dsi_backlight_calculate k bl (requested_brightness props) = some lvl)
    (hnew : ¬ (to_u32 (to_int lvl) = bl.bl_actual ∧ bl.last_state = props.state))
    (hallow : bl.allow_bl_update = true) (hinit : hw.panel_initialized = true)
    (hcall : call_update_bl hw bl props (to_u32 (to_int lvl)) = some (rc, bl1, ev))
    (hrc : rc ≠ 0) :
    dsi_backlight_update_status k hw bl props = some (rc, bl1, ev) ∧
    bl1.last_state = bl.last_state ∧ bl1.bl_update_pending = bl.bl_update_pending ∧
    (bl.update_bl = update_bl_fn.dsi_backlight_update_dcs → bl1 = bl) ∧
    (∀ lp_data, bl.priv = some lp_data →
      bl.update_bl = update_bl_fn.dsi_panel_binned_bl_update →
      (lp_data.last_lp_mode = none → bl1.bl_actual = bl.bl_actual) ∧
      (lp_data.last_lp_mode ≠ none → bl1.bl_actual = to_u32 (-1))) := by
  have hf := call_update_bl_frame hw bl props _ rc bl1 ev hcall
  refine ⟨?_, hf.2.2.2.2.2.1, hf.2.2.2.2.2.2.1, hf.2.2.2.2.2.2.2.2.1,
    hf.2.2.2.2.2.2.2.2.2 hrc⟩
  have hfn : bl.update_bl ≠ update_bl_fn.NULL := by
    intro h0
    unfold call_update_bl at hcall
    rw [h0] at hcall
    exact absurd hcall (by simp)
  unfold dsi_backlight_update_status
  simp only []
  rw [hcalc]
  simp only []
  rw [if_neg hnew, hallow, if_neg (by simp), if_pos ⟨hinit, hfn⟩, hcall]
  simp only []
  rw [if_pos hrc]

/-- C10, witness: the plain level dispatch on hardware that rejects the
level `2048`. -/
theorem dsi_backlight_update_status_dispatch_failure_witness :
    call_update_bl failing_hw (example_config 0 4095 255) (example_props 128 0)
      (to_u32 (to_int ((2048 : Nat) : Int)))
      = some (-5, example_config 0 4095 255, [hw_event.dcs_set_display_brightness 2048 2]) ∧
    dsi_backlight_update_status example_consts failing_hw (example_config 0 4095 255)
      (example_props 128 0)
      = some (-5, example_config 0 4095 255, [hw_event.dcs_set_display_brightness 2048 2]) :=
  ⟨by decide,
    (dsi_backlight_update_status_dispatch_failure example_consts failing_hw
      (example_config 0 4095 255) (example_props 128 0) 2048 (-5) (example_config 0 4095 255)
      [hw_event.dcs_set_display_brightness 2048 2] (by decide) (by decide) (by decide)
      (by decide) (by decide) (by decide)).1⟩

/-- C10 as stated fails: on the binned path with the profile `dim` active
and level `2048` applied last, leaving low power with hardware that rejects
the level returns the error `-5` and leaves `bl_actual = 4294967295`, not the
`2048` it was before the call. -/
theorem dsi_backlight_update_status_dispatch_failure_counterexample :
    example_binned_config.bl_actual = 2048 ∧
    (dsi_panel_binned_bl_update failing_hw example_binned_config (example_props 128 0) 2048).map
      (fun r => r.1) = some (-5) ∧
    (dsi_backlight_update_status example_consts failing_hw example_binned_config
      (example_props 128 0)).map (fun r => (r.1, r.2.1.bl_actual, r.2.1.last_state))
      = some (-5, 4294967295, BL_STATE_LP) := by
  decide

/-! ## Level scaler: brightness zero -/

/-- C15: for every config (any limits, any UI range, any values of the two
scale factors and of the full-scale constants),
`dsi_backlight_calculate` maps brightness `0` to level `0`. -/
theorem dsi_backlight_calculate_zero (k : bl_scale_consts) (bl : dsi_backlight_config) :
    dsi_backlight_calculate k bl 0 = some 0 := by
  unfold dsi_backlight_calculate
  rw [if_neg (by simp)]

/-! ## Power states: invariant and edge classification -/

theorem is_lp_mode_of_bit (s i : Nat) (h30 : 30 ≤ i) (h64 : i < 64)
    (hb : s.testBit i = true) : is_lp_mode s = true := by
  unfold is_lp_mode
  have hne : s &&& int_to_ulong (BL_STATE_LP ||| BL_STATE_LP2) ≠ 0 := by
    intro h0
    have hbit := congrArg (fun x => Nat.testBit x i) h0
    simp only [Nat.testBit_land, Nat.testBit_lor, testBit_int_to_ulong, testBit_LP, testBit_LP2,
      Nat.zero_testBit, hb] at hbit
    by_cases h32 : 32 ≤ i
    · simp [h32, h64] at hbit
    · have : i = 30 ∨ i = 31 := by omega
      rcases this with h | h <;> simp [h] at hbit
  simpa using hne

theorem is_lp_mode_eq_false (s : Nat) (h : ∀ i, 30 ≤ i → i < 64 → s.testBit i = false) :
    is_lp_mode s = false := by
  unfold is_lp_mode
  have h0 : s &&& int_to_ulong (BL_STATE_LP ||| BL_STATE_LP2) = 0 := by
    apply Nat.eq_of_testBit_eq
    intro i
    simp only [Nat.testBit_land, Nat.testBit_lor, testBit_int_to_ulong, testBit_LP, testBit_LP2,
      Nat.zero_testBit]
    by_cases h30 : 30 ≤ i
    · by_cases h64 : i < 64
      · rw [h i h30 h64]
        simp
      · have h1 : i ≠ 31 := by omega
        have h2 : i ≠ 30 := by omega
        simp [h64, h1, h2]
    · have h1 : i ≠ 31 := by omega
      have h2 : i ≠ 30 := by omega
      have h3 : ¬ 32 ≤ i := by omega
      simp [h1, h2, h3]
  simp [h0]

/-- On a 32-bit state word, `is_lp_mode` reads bits 31 and 30. -/
theorem is_lp_mode_eq_bits (s : Nat) (hs : s < 4294967296) :
    is_lp_mode s = (s.testBit 31 || s.testBit 30) := by
  by_cases h : (s.testBit 31 || s.testBit 30) = true
  · rw [h]
    rcases Bool.or_eq_true _ _ ▸ h with h31 | h30
    · exact is_lp_mode_of_bit s 31 (by norm_num) (by norm_num) h31
    · exact is_lp_mode_of_bit s 30 (by norm_num) (by norm_num) h30
  · have hf : (s.testBit 31 || s.testBit 30) = false := by simpa using h
    rw [hf]
    apply is_lp_mode_eq_false
    intro i h30 h64
    by_cases h32 : 32 ≤ i
    · exact testBit_high_false hs h32
    · have : i = 30 ∨ i = 31 := by omega
      simp only [Bool.or_eq_false_iff] at hf
      rcases this with h | h
      · rw [h]
        exact hf.2
      · rw [h]
        exact hf.1

theorem get_state_after_dpms_bit (props : backlight_properties) (i : Nat) (hi : i < 32) :
    (get_state_after_dpms props power_mode.SDE_MODE_DPMS_ON).testBit i
      = (props.state.testBit i && decide (i ≠ 1) && decide (i ≠ 30) && decide (i ≠ 31)) ∧
    (get_state_after_dpms props power_mode.SDE_MODE_DPMS_OFF).testBit i
      = (decide (i = 1) || (props.state.testBit i && decide (i ≠ 30) && decide (i ≠ 31))) ∧
    (get_state_after_dpms props power_mode.SDE_MODE_DPMS_LP1).testBit i
      = (decide (i = 31) || (props.state.testBit i && decide (i ≠ 30))) ∧
    (get_state_after_dpms props power_mode.SDE_MODE_DPMS_LP2).testBit i
      = (decide (i = 30) || decide (i = 31) || props.state.testBit i) := by
  have h := get_state_after_dpms_testBit props i
  rw [h.1, h.2.1, h.2.2.1, h.2.2.2]
  cases props.state.testBit i <;>
    by_cases h29 : i < 30 <;> by_cases h30 : i = 30 <;> by_cases h31 : i = 31 <;>
    by_cases h1 : i = 1 <;>
    first
    | omega
    | (have g30 : 30 ≤ i := by omega
       have g31 : 31 ≤ i := by omega
       have g64 : i < 64 := by omega
       simp [h29, h30, h31, h1, g30, g31, g64])
    | (have g30 : 30 ≤ i := by omega
       have g31 : ¬ 31 ≤ i := by omega
       have g64 : i < 64 := by omega
       simp [h29, h30, h31, h1, g30, g31, g64])
    | (have g30 : ¬ 30 ≤ i := by omega
       have g31 : ¬ 31 ≤ i := by omega
       have g64 : i < 64 := by omega
       simp [h29, h30, h31, h1, g30, g31, g64])

/-- Whether the state after a directive is a low-power state depends on the
directive only. -/
theorem is_lp_mode_after_dpms (props : backlight_properties) :
    is_lp_mode (get_state_after_dpms props power_mode.SDE_MODE_DPMS_ON) = false ∧
    is_lp_mode (get_state_after_dpms props power_mode.SDE_MODE_DPMS_OFF) = false ∧
    is_lp_mode (get_state_after_dpms props power_mode.SDE_MODE_DPMS_LP1) = true ∧
    is_lp_mode (get_state_after_dpms props power_mode.SDE_MODE_DPMS_LP2) = true := by
  refine ⟨?_, ?_, ?_, ?_⟩
  · apply is_lp_mode_eq_false
    intro i h30 _
    have h29 : ¬ i < 30 := by omega
    rw [(get_state_after_dpms_testBit props i).1]
    simp [h29]
  · apply is_lp_mode_eq_false
    intro i h30 _
    have h29 : ¬ i < 30 := by omega
    have h1 : i ≠ 1 := by omega
    rw [(get_state_after_dpms_testBit props i).2.1]
    simp [h29, h1]
  · apply is_lp_mode_of_bit _ 31 (by norm_num) (by norm_num)
    rw [(get_state_after_dpms_testBit props 31).2.2.1]
    simp
  · apply is_lp_mode_of_bit _ 31 (by norm_num) (by norm_num)
    rw [(get_state_after_dpms_testBit props 31).2.2.2]
    simp

theorem get_state_after_dpms_idem (props : backlight_properties) (mode : power_mode) :
    get_state_after_dpms { props with state := get_state_after_dpms props mode } mode
      = get_state_after_dpms props mode := by
  apply Nat.eq_of_testBit_eq
  intro i
  have h := get_state_after_dpms_testBit props i
  have h2 := get_state_after_dpms_testBit
    { props with state := get_state_after_dpms props mode } i
  cases mode with
  | SDE_MODE_DPMS_ON =>
    rw [h2.1]
    simp only []
    rw [h.1]
    cases props.state.testBit i <;> by_cases h1 : i = 1 <;> by_cases h29 : i < 30 <;>
      by_cases h31 : (31 ≤ i ∧ i < 64) <;> by_cases h30 : (30 ≤ i ∧ i < 64) <;>
      by_cases h32 : i < 32 <;>
      first
      | omega
      | simp [h1, h29, h31, h30, h32]
  | SDE_MODE_DPMS_OFF =>
    rw [h2.2.1]
    simp only []
    rw [h.2.1]
    cases props.state.testBit i <;> by_cases h1 : i = 1 <;> by_cases h29 : i < 30 <;>
      by_cases h31 : (31 ≤ i ∧ i < 64) <;> by_cases h30 : (30 ≤ i ∧ i < 64) <;>
      by_cases h32 : i < 32 <;>
      first
      | omega
      | simp [h1, h29, h31, h30, h32]
  | SDE_MODE_DPMS_LP1 =>
    rw [h2.2.2.1]
    simp only []
    rw [h.2.2.1]
    cases props.state.testBit i <;> by_cases h1 : i = 1 <;> by_cases h29 : i < 30 <;>
      by_cases h31 : (31 ≤ i ∧ i < 64) <;> by_cases h30 : (30 ≤ i ∧ i < 64) <;>
      by_cases h32 : i < 32 <;>
      first
      | omega
      | simp [h1, h29, h31, h30, h32]
  | SDE_MODE_DPMS_LP2 =>
    rw [h2.2.2.2]
    simp only []
    rw [h.2.2.2]
    cases props.state.testBit i <;> by_cases h1 : i = 1 <;> by_cases h29 : i < 30 <;>
      by_cases h31 : (31 ≤ i ∧ i < 64) <;> by_cases h30 : (30 ≤ i ∧ i < 64) <;>
      by_cases h32 : i < 32 <;>
      first
      | omega
      | simp [h1, h29, h31, h30, h32]
  | other => rfl

/-- Applying a directive to the state word stored from its own result stores
the same state word again. -/
theorem state_after_requests_idem (props : backlight_properties) (mode : power_mode) :
    state_after_requests props [mode, mode] = state_after_requests props [mode] := by
  unfold state_after_requests
  simp only [List.foldl_cons, List.foldl_nil]
  apply Nat.eq_of_testBit_eq
  intro i
  have h := get_state_after_dpms_testBit props i
  have h2 := get_state_after_dpms_testBit
    { props with state := get_state_after_dpms props mode % 4294967296 } i
  simp only [testBit_mod32]
  cases mode with
  | SDE_MODE_DPMS_ON =>
    rw [h2.1]
    simp only [testBit_mod32]
    rw [h.1]
    cases props.state.testBit i <;> by_cases h1 : i = 1 <;> by_cases h29 : i < 30 <;>
      by_cases h31 : (31 ≤ i ∧ i < 64) <;> by_cases h30 : (30 ≤ i ∧ i < 64) <;>
      by_cases h32 : i < 32 <;>
      first
      | omega
      | simp [h1, h29, h31, h30, h32]
  | SDE_MODE_DPMS_OFF =>
    rw [h2.2.1]
    simp only [testBit_mod32]
    rw [h.2.1]
    cases props.state.testBit i <;> by_cases h1 : i = 1 <;> by_cases h29 : i < 30 <;>
      by_cases h31 : (31 ≤ i ∧ i < 64) <;> by_cases h30 : (30 ≤ i ∧ i < 64) <;>
      by_cases h32 : i < 32 <;>
      first
      | omega
      | simp [h1, h29, h31, h30, h32]
  | SDE_MODE_DPMS_LP1 =>
    rw [h2.2.2.1]
    simp only [testBit_mod32]
    rw [h.2.2.1]
    cases props.state.testBit i <;> by_cases h1 : i = 1 <;> by_cases h29 : i < 30 <;>
      by_cases h31 : (31 ≤ i ∧ i < 64) <;> by_cases h30 : (30 ≤ i ∧ i < 64) <;>
      by_cases h32 : i < 32 <;>
      first
      | omega
      | simp [h1, h29, h31, h30, h32]
  | SDE_MODE_DPMS_LP2 =>
    rw [h2.2.2.2]
    simp only [testBit_mod32]
    rw [h.2.2.2]
    cases props.state.testBit i <;> by_cases h1 : i = 1 <;> by_cases h29 : i < 30 <;>
      by_cases h31 : (31 ≤ i ∧ i < 64) <;> by_cases h30 : (30 ≤ i ∧ i < 64) <;>
      by_cases h32 : i < 32 <;>
      first
      | omega
      | simp [h1, h29, h31, h30, h32]
  | other =>
    simp only [get_state_after_dpms, testBit_mod32]
    cases props.state.testBit i <;> by_cases h1 : i = 1 <;> by_cases h29 : i < 30 <;>
      by_cases h31 : (31 ≤ i ∧ i < 64) <;> by_cases h30 : (30 ≤ i ∧ i < 64) <;>
      by_cases h32 : i < 32 <;>
      first
      | omega
      | simp [h1, h29, h31, h30, h32]

theorem lp2_implies_lp1_after_dpms (props : backlight_properties) (mode : power_mode)
    (hmode : mode ≠ power_mode.other)
    (h30 : (get_state_after_dpms props mode).testBit 30 = true) :
    (get_state_after_dpms props mode).testBit 31 = true := by
  have b31 := get_state_after_dpms_bit props 31 (by norm_num)
  have b30 := get_state_after_dpms_bit props 30 (by norm_num)
  cases mode with
  | SDE_MODE_DPMS_ON =>
    rw [b30.1] at h30
    simp at h30
  | SDE_MODE_DPMS_OFF =>
    rw [b30.2.1] at h30
    simp at h30
  | SDE_MODE_DPMS_LP1 =>
    rw [b31.2.2.1]
    simp
  | SDE_MODE_DPMS_LP2 =>
    rw [b31.2.2.2]
    simp
  | other => exact absurd rfl hmode

theorem lp2_implies_lp1_foldl (props : backlight_properties) (modes : List power_mode) :
    ∀ s : Nat, (s.testBit 30 = true → s.testBit 31 = true) →
      (modes.foldl
        (fun state mode => get_state_after_dpms { props with state := state } mode % 4294967296)
        s).testBit 30 = true →
      (modes.foldl
        (fun state mode => get_state_after_dpms { props with state := state } mode % 4294967296)
        s).testBit 31 = true := by
  induction modes with
  | nil =>
    intro s hs
    exact hs
  | cons m rest ih =>
    intro s hs
    rw [List.foldl_cons]
    apply ih
    simp only [testBit_mod32]
    by_cases hm : m = power_mode.other
    · subst hm
      simpa [get_state_after_dpms] using hs
    · intro h
      have := lp2_implies_lp1_after_dpms { props with state := s } m hm (by simpa using h)
      simpa using this

/-- C20: for every input state and each of the four directives, the state
`get_state_after_dpms` returns has bit 30 (LowPower2) set only if bit 31
(LowPower1) is set; an unrecognised directive returns the state unchanged;
from a state with that property every sequence of power-mode requests gives
a state with it; and applying a directive to the state it returned returns
the same state again, also when the state is stored in the state word in
between. -/
theorem get_state_after_dpms_lp_invariant (props : backlight_properties)
    (mode : power_mode) (modes : List power_mode) :
    (mode ≠ power_mode.other →
      (get_state_after_dpms props mode).testBit 30 = true →
      (get_state_after_dpms props mode).testBit 31 = true) ∧
    get_state_after_dpms props power_mode.other = props.state ∧
    ((props.state.testBit 30 = true → props.state.testBit 31 = true) →
      (state_after_requests props modes).testBit 30 = true →
      (state_after_requests props modes).testBit 31 = true) ∧
    get_state_after_dpms { props with state := get_state_after_dpms props mode } mode
      = get_state_after_dpms props mode ∧
    state_after_requests props [mode, mode] = state_after_requests props [mode] :=
  ⟨lp2_implies_lp1_after_dpms props mode, rfl,
    lp2_implies_lp1_foldl props modes props.state, get_state_after_dpms_idem props mode,
    state_after_requests_idem props mode⟩

/-- C18: with the regulator present, for every last state, every live state
and each of the four directives, `dsi_backlight_early_dpms` requests
`REGULATOR_MODE_IDLE` exactly when the last state is not low-power and the
directive applied to the last state gives a low-power state, requests
`REGULATOR_MODE_NORMAL` exactly when the last state is low-power and the
directive applied to the last state gives a state that is not low-power, and
requests nothing otherwise (the code applies the directive to the live
state, which gives the same classification); it returns `0` and leaves the
config (`last_state` and `bl_actual` included) and the live properties as
they were. -/
theorem dsi_backlight_early_dpms_edges (bl : dsi_backlight_config)
    (props : backlight_properties) (mode : power_mode)
    (hvreg : bl.lab_vreg = true) (hmode : mode ≠ power_mode.other) :
    dsi_backlight_early_dpms bl (some props) mode =
      (0, bl, some props,
        if ¬ is_lp_mode bl.last_state ∧
            is_lp_mode (get_state_after_dpms { props with state := bl.last_state } mode) then
          [hw_event.regulator_set_mode regulator_mode.REGULATOR_MODE_IDLE]
        else if is_lp_mode bl.last_state ∧
            ¬ is_lp_mode (get_state_after_dpms { props with state := bl.last_state } mode) then
          [hw_event.regulator_set_mode regulator_mode.REGULATOR_MODE_NORMAL]
        else []) := by
  have hlive := is_lp_mode_after_dpms props
  have hlast := is_lp_mode_after_dpms { props with state := bl.last_state }
  unfold dsi_backlight_early_dpms
  simp only [hvreg, if_true]
  cases mode with
  | SDE_MODE_DPMS_ON =>
    rw [hlive.1, hlast.1]
    cases is_lp_mode bl.last_state <;> simp
  | SDE_MODE_DPMS_OFF =>
    rw [hlive.2.1, hlast.2.1]
    cases is_lp_mode bl.last_state <;> simp
  | SDE_MODE_DPMS_LP1 =>
    rw [hlive.2.2.1, hlast.2.2.1]
    cases is_lp_mode bl.last_state <;> simp
  | SDE_MODE_DPMS_LP2 =>
    rw [hlive.2.2.2, hlast.2.2.2]
    cases is_lp_mode bl.last_state <;> simp
  | other => exact absurd rfl hmode

/-- C18, witness: the regulator present, last state normal, live state
LowPower1, directive EnterLP2: the rail is set to idle. -/
theorem dsi_backlight_early_dpms_edges_witness :
    ({ example_config 0 4095 255 with lab_vreg := true } : dsi_backlight_config).lab_vreg = true ∧
    dsi_backlight_early_dpms { example_config 0 4095 255 with lab_vreg := true }
      (some (example_props 128 BL_STATE_LP)) power_mode.SDE_MODE_DPMS_LP2 =
      (0, { example_config 0 4095 255 with lab_vreg := true },
        some (example_props 128 BL_STATE_LP),
        [hw_event.regulator_set_mode regulator_mode.REGULATOR_MODE_IDLE]) :=
  ⟨rfl, dsi_backlight_early_dpms_edges { example_config 0 4095 255 with lab_vreg := true }
    (example_props 128 BL_STATE_LP) power_mode.SDE_MODE_DPMS_LP2 rfl (by decide)⟩

/-! ## Coordinator: deferral, applied level, low-power exit -/

/-- C19: for every call of `dsi_backlight_update_status` that computes its
level, is not suppressed as redundant and is made while `allow_bl_update` is
false, the call returns success, sets `bl_update_pending`, asks nothing of
the hardware and leaves everything else in the config, `bl_actual` and
`last_state` included, as it was. -/
theorem dsi_backlight_update_status_deferred (k : bl_scale_consts) (hw : hw_env)
    (bl : dsi_backlight_config) (props : backlight_properties) (lvl : Nat)
    (hcalc : dsi_backlight_calculate k bl (requested_brightness props) = some lvl)
    (hnew : ¬ (to_u32 (to_int lvl) = bl.bl_actual ∧ bl.last_state = props.state))
    (hallow : bl.allow_bl_update = false) :
    dsi_backlight_update_status k hw bl props
      = some (0, { bl with bl_update_pending := true }, []) ∧
    ({ bl with bl_update_pending := true } : dsi_backlight_config).bl_actual = bl.bl_actual ∧
    ({ bl with bl_update_pending := true } : dsi_backlight_config).last_state = bl.last_state ∧
    dispatch_count [] = 0 := by
  refine ⟨?_, rfl, rfl, rfl⟩
  unfold dsi_backlight_update_status
  simp only []
  rw [hcalc]
  simp only []
  rw [if_neg hnew, hallow, if_pos (by simp)]

/-- C19, witness: brightness `128` while updates are not allowed. -/
theorem dsi_backlight_update_status_deferred_witness :
    dsi_backlight_calculate example_consts
      { example_config 0 4095 255 with allow_bl_update := false }
      (requested_brightness (example_props 128 0)) = some 2048 ∧
    dsi_backlight_update_status example_consts working_hw
      { example_config 0 4095 255 with allow_bl_update := false } (example_props 128 0)
      = some (0, { example_config 0 4095 255 with
                    allow_bl_update := false, bl_update_pending := true }, []) :=
  ⟨by decide,
    (dsi_backlight_update_status_deferred example_consts working_hw
      { example_config 0 4095 255 with allow_bl_update := false } (example_props 128 0) 2048
      (by decide) (by decide) (by decide)).1⟩

theorem binned_lp_select_not_lp (props : backlight_properties) (mode_list : List binned_lp_node)
    (h : is_lp_mode props.state = false) : binned_lp_select props mode_list = none := by
  unfold binned_lp_select
  rw [h]
  rfl

theorem to_u32_neg_one : to_u32 (-1) = 4294967295 := by
  decide

theorem to_u32_to_int_small (L : Nat) (hL : L < 2147483648) : to_u32 (to_int (L : Int)) = L := by
  rw [to_int_natCast L hL, to_u32_natCast L (by omega)]

/-- C12: on the binned update path with updates allowed, the panel
initialised and a profile active, when the last applied state is a low-power
state, the live state is not, and the level computed is `L ≤ 0xFFFF`,
whatever `bl_actual` holds (`L` itself included),
`dsi_panel_binned_bl_update` writes
the sentinel `(u32)-1` to `bl_actual`, clears the active profile and
dispatches the level `L`; `dsi_backlight_update_status` is not suppressed, it
makes exactly that dispatch and returns its return code, with `bl_actual = L`
and the new state recorded when the dispatch succeeds. -/
theorem dsi_backlight_update_status_lp_exit (k : bl_scale_consts) (hw : hw_env)
    (bl : dsi_backlight_config) (props : backlight_properties) (lp_data : binned_lp_data)
    (slot L : Nat)
    (hfn : bl.update_bl = update_bl_fn.dsi_panel_binned_bl_update)
    (hallow : bl.allow_bl_update = true) (hinit : hw.panel_initialized = true)
    (hpriv : bl.priv = some lp_data) (hactive : lp_data.last_lp_mode = some slot)
    (hlast : is_lp_mode bl.last_state = true) (hnow : is_lp_mode props.state = false)
    (hcalc : dsi_backlight_calculate k bl (requested_brightness props) = some L)
    (hL : L ≤ 0xFFFF) :
    dsi_panel_binned_bl_update hw bl props L =
      some (hw.dcs_rc L (if bl.bl_max_level > 0xFF then 2 else 1),
        { bl with priv := some { lp_data with last_lp_mode := none }, bl_actual := to_u32 (-1) },
        [hw_event.dcs_set_display_brightness L (if bl.bl_max_level > 0xFF then 2 else 1)]) ∧
    dsi_backlight_update_status k hw bl props =
      some (hw.dcs_rc L (if bl.bl_max_level > 0xFF then 2 else 1),
        if hw.dcs_rc L (if bl.bl_max_level > 0xFF then 2 else 1) ≠ 0 then
          { bl with priv := some { lp_data with last_lp_mode := none },
                    bl_actual := to_u32 (-1) }
        else
          { bl with priv := some { lp_data with last_lp_mode := none }, bl_actual := L,
                    bl_update_pending := false, last_state := props.state },
        [hw_event.dcs_set_display_brightness L (if bl.bl_max_level > 0xFF then 2 else 1)]) := by
  have hsel := binned_lp_select_not_lp props lp_data.mode_list hnow
  have hLL : to_u32 (to_int (L : Int)) = L := to_u32_to_int_small L (by omega)
  have hbin : dsi_panel_binned_bl_update hw bl props L =
      some (hw.dcs_rc L (if bl.bl_max_level > 0xFF then 2 else 1),
        { bl with priv := some { lp_data with last_lp_mode := none }, bl_actual := to_u32 (-1) },
        [hw_event.dcs_set_display_brightness L (if bl.bl_max_level > 0xFF then 2 else 1)]) := by
    rw [(binned_bl_update_cases hw bl props L lp_data hpriv).2 hsel, hactive,
      if_pos (by simp)]
    unfold dsi_backlight_update_dcs
    simp only []
    rw [if_neg (by norm_num at hL ⊢; omega), to_u32_neg_one,
      if_neg (by omega)]
  refine ⟨hbin, ?_⟩
  have hstate : bl.last_state ≠ props.state := by
    intro heq
    rw [heq, hnow] at hlast
    exact absurd hlast (by simp)
  unfold dsi_backlight_update_status
  simp only []
  rw [hcalc]
  simp only []
  rw [hLL, if_neg (fun hc => hstate hc.2), hallow, if_neg (by simp),
    if_pos ⟨hinit, by rw [hfn]; simp⟩]
  unfold call_update_bl
  rw [hfn]
  simp only []
  rw [hbin]
  simp only []
  by_cases hrc : hw.dcs_rc L (if bl.bl_max_level > 0xFF then 2 else 1) ≠ 0
  · rw [if_pos hrc, if_pos hrc]
    simp [hallow, hfn]
  · rw [if_neg hrc, if_neg hrc]
    simp [hallow, hfn]

/-- C12, witness: the profile `dim` active, level `2048` applied last in
LowPower1, the state back to normal with brightness `128`, which computes
`2048` again: the level `2048` is dispatched. -/
theorem dsi_backlight_update_status_lp_exit_witness :
    example_binned_config.bl_actual = 2048 ∧
    is_lp_mode example_binned_config.last_state = true ∧
    dsi_backlight_update_status example_consts working_hw example_binned_config
      (example_props 128 0) =
      some (0,
        { example_binned_config with
          priv := some { mode_list := example_table, last_lp_mode := none }
          last_state := 0 },
        [hw_event.dcs_set_display_brightness 2048 2]) :=
  ⟨by decide, by decide,
    (dsi_backlight_update_status_lp_exit example_consts working_hw example_binned_config
      (example_props 128 0) { mode_list := example_table, last_lp_mode := some example_dim.slot }
      example_dim.slot 2048 (by decide) (by decide) (by decide) (by decide) (by decide)
      (by decide) (by decide) (by decide) (by decide)).2⟩

/-! ## Binned update: active profiles, blanked states -/

theorem update_dcs_cmd_transfer_count (hw : hw_env) (bl : dsi_backlight_config) (bl_lvl : Nat) :
    cmd_transfer_count (dsi_backlight_update_dcs hw bl bl_lvl).2 = 0 := by
  unfold dsi_backlight_update_dcs
  split
  · simp [cmd_transfer_count]
  · split
    · simp [cmd_transfer_count]
    · simp [cmd_transfer_count]

theorem update_status_repeat_noop (k : bl_scale_consts) (hw : hw_env)
    (props : backlight_properties) (bl : dsi_backlight_config)
    (h : dsi_backlight_update_status k hw bl props = some (0, bl, [])) :
    ∀ n, update_status_repeat k hw props n bl = some (bl, []) := by
  intro n
  induction n with
  | zero => rfl
  | succ m ih =>
    unfold update_status_repeat
    rw [h]
    simp only []
    rw [ih]
    rfl

/-- C13: in `dsi_panel_binned_bl_update`, exactly one command sequence, that
of the selected profile, is dispatched when the selection is a profile other
than the active one, and none otherwise; when the selected profile is the
active one the update returns success and asks nothing of the hardware,
neither a command sequence nor a level.  Entering LowPower1 with brightness
`40` against `[dim:50, medium:150, bright:MAX]` dispatches the command
sequence of `dim`, and however often brightness `40` is sent again nothing
more is dispatched. -/
theorem dsi_panel_binned_bl_update_absorbs (hw : hw_env) (bl : dsi_backlight_config)
    (props : backlight_properties) (bl_lvl : Nat) (lp_data : binned_lp_data)
    (hpriv : bl.priv = some lp_data) :
    (∃ r, dsi_panel_binned_bl_update hw bl props bl_lvl = some r ∧
      (∀ n, binned_lp_select props lp_data.mode_list = some n →
        some n.slot ≠ lp_data.last_lp_mode →
        r.1 = 0 ∧ r.2.2 = [hw_event.cmd_set_transfer n.dsi_cmd]) ∧
      ((¬ ∃ n, binned_lp_select props lp_data.mode_list = some n ∧
          some n.slot ≠ lp_data.last_lp_mode) → cmd_transfer_count r.2.2 = 0)) ∧
    (∀ n, binned_lp_select props lp_data.mode_list = some n →
      some n.slot = lp_data.last_lp_mode →
      dsi_panel_binned_bl_update hw bl props bl_lvl = some (0, bl, [])) ∧
    dsi_backlight_late_dpms example_consts working_hw example_binned_normal_config
      (some (example_props 40 0)) power_mode.SDE_MODE_DPMS_LP1
      = some (0, { example_binned_config with bl_actual := 630 },
          some (example_props 40 BL_STATE_LP),
          [hw_event.cmd_set_transfer example_dim.dsi_cmd]) ∧
    ∀ n, update_status_repeat example_consts working_hw (example_props 40 BL_STATE_LP) n
      { example_binned_config with bl_actual := 630 }
      = some ({ example_binned_config with bl_actual := 630 }, []) := by
  have hc := binned_bl_update_cases hw bl props bl_lvl lp_data hpriv
  refine ⟨?_, ?_, by decide, update_status_repeat_noop _ _ _ _ (by decide)⟩
  · cases hsel : binned_lp_select props lp_data.mode_list with
    | none =>
      rw [hc.2 hsel]
      split
      · refine ⟨_, rfl, ?_, ?_⟩
        · intro n hn
          exact absurd hn (by simp)
        · intro _
          exact update_dcs_cmd_transfer_count _ _ _
      · refine ⟨_, rfl, ?_, ?_⟩
        · intro n hn
          exact absurd hn (by simp)
        · intro _
          exact update_dcs_cmd_transfer_count _ _ _
    | some m =>
      rw [hc.1 m hsel]
      split
      · rename_i hne
        refine ⟨_, rfl, ?_, ?_⟩
        · intro n hn _
          injection hn with hn
          subst hn
          exact ⟨rfl, rfl⟩
        · intro hno
          exact absurd ⟨m, rfl, hne⟩ hno
      · refine ⟨_, rfl, ?_, ?_⟩
        · intro n hn hne
          injection hn with hn
          subst hn
          rename_i hsame
          exact absurd hne hsame
        · intro _
          rfl
  · intro n hn hsame
    rw [hc.1 n hn, if_neg (by rw [hsame]; simp)]

/-- C13, witness: the profile `dim` active and selected again for brightness
`45` in LowPower1: nothing is asked of the hardware. -/
theorem dsi_panel_binned_bl_update_absorbs_witness :
    example_binned_config.priv
      = some { mode_list := example_table, last_lp_mode := some example_dim.slot } ∧
    dsi_panel_binned_bl_update working_hw example_binned_config (example_props 45 BL_STATE_LP)
      708 = some (0, example_binned_config, []) :=
  ⟨rfl,
    (dsi_panel_binned_bl_update_absorbs working_hw example_binned_config
      (example_props 45 BL_STATE_LP) 708
      { mode_list := example_table, last_lp_mode := some example_dim.slot } rfl).2.1
      example_dim (by decide) (by decide)⟩

theorem requested_brightness_blanked (props : backlight_properties)
    (hblank : props.state.testBit 1 = true) : requested_brightness props = 0 := by
  unfold requested_brightness
  rw [if_pos]
  left
  intro h0
  have h1 := congrArg (fun x => Nat.testBit x 1) h0
  simp only [Nat.testBit_land, Nat.testBit_lor, testBit_FBBLANK, hblank, Nat.zero_testBit] at h1
  simp at h1

/-- C14 (amended): for every state word with bit 1 (Blanked) set, whatever
the low-power bits, and every requested brightness,
`dsi_backlight_update_status` scales brightness `0` and computes the device
code `0`; on the binned path in a low-power state the profile whose command
sequence it dispatches is the one selected for the unforced
`props.brightness`: the first node of the table whose threshold is at least
that brightness. -/
theorem dsi_backlight_update_status_blanked (k : bl_scale_consts) (hw : hw_env)
    (bl : dsi_backlight_config) (props : backlight_properties)
    (hblank : props.state.testBit 1 = true) :
    requested_brightness props = 0 ∧
    dsi_backlight_calculate k bl (requested_brightness props) = some 0 ∧
    (∀ (lp_data : binned_lp_data) (n : binned_lp_node),
      bl.update_bl = update_bl_fn.dsi_panel_binned_bl_update → bl.priv = some lp_data →
      bl.allow_bl_update = true → hw.panel_initialized = true →
      ¬ (bl.bl_actual = 0 ∧ bl.last_state = props.state) →
      binned_lp_select props lp_data.mode_list = some n →
      some n.slot ≠ lp_data.last_lp_mode →
      to_u32 props.brightness ≤ n.bl_threshold ∧
      dsi_backlight_update_status k hw bl props =
        some (0,
          { bl with priv := some { lp_data with last_lp_mode := some n.slot }
                    bl_update_pending := false, bl_actual := 0, last_state := props.state },
          [hw_event.cmd_set_transfer n.dsi_cmd])) := by
  have hreq := requested_brightness_blanked props hblank
  have hcalc : dsi_backlight_calculate k bl (requested_brightness props) = some 0 := by
    rw [hreq]
    unfold dsi_backlight_calculate
    rw [if_neg (by simp)]
  refine ⟨hreq, hcalc, ?_⟩
  intro lp_data n hfn hpriv hallow hinit hnew hsel hne
  constructor
  · unfold binned_lp_select at hsel
    split at hsel
    · have := List.find?_some hsel
      simpa using this
    · exact absurd hsel (by simp)
  · have h0 : to_u32 (to_int ((0 : Nat) : Int)) = 0 := by decide
    unfold dsi_backlight_update_status
    simp only []
    rw [hcalc]
    simp only []
    rw [h0, if_neg (fun hc => hnew ⟨hc.1.symm, hc.2⟩), hallow, if_neg (by simp),
      if_pos ⟨hinit, by rw [hfn]; simp⟩]
    unfold call_update_bl
    rw [hfn]
    simp only []
    rw [(binned_bl_update_cases hw bl props 0 lp_data hpriv).1 n hsel, if_pos hne]
    simp [hallow, hfn]

/-- C14, witness: blanked and in LowPower1 (the state after Off, then
EnterLP1), brightness `100`: level `0` is computed. -/
theorem dsi_backlight_update_status_blanked_witness :
    state_after_requests (example_props 100 0)
      [power_mode.SDE_MODE_DPMS_OFF, power_mode.SDE_MODE_DPMS_LP1] = 2147483650 ∧
    (example_props 100 2147483650).state.testBit 1 = true ∧
    dsi_backlight_calculate example_consts example_binned_normal_config
      (requested_brightness (example_props 100 2147483650)) = some 0 :=
  ⟨by decide, by decide,
    (dsi_backlight_update_status_blanked example_consts working_hw
      example_binned_normal_config (example_props 100 2147483650) (by decide)).2.1⟩

/-- C14 as stated fails: blanked and in LowPower1 with brightness `100`
against `[dim:50, medium:150, bright:MAX]`, the binned path dispatches the
command sequence of `medium`, the profile for brightness `100`, not that of
`dim`, the profile for brightness `0`. -/
theorem dsi_backlight_update_status_blanked_counterexample :
    (example_props 100 2147483650).state.testBit 1 = true ∧
    is_lp_mode (example_props 100 2147483650).state = true ∧
    (dsi_backlight_update_status example_consts working_hw example_binned_normal_config
      (example_props 100 2147483650)).map (fun r => (r.1, r.2.1.bl_actual, r.2.2))
      = some (0, 0, [hw_event.cmd_set_transfer example_medium.dsi_cmd]) ∧
    binned_lp_select (example_props 0 2147483650) example_table = some example_dim ∧
    example_medium.dsi_cmd ≠ example_dim.dsi_cmd := by
  decide

/-! ## Binned low-power modes: the constructed table -/

theorem binned_bl_cmp_le_iff (a b : binned_lp_node) (ha : a.bl_threshold < 2147483648)
    (hb : b.bl_threshold < 2147483648) :
    _dsi_panel_binned_bl_cmp a b ≤ 0 ↔ a.bl_threshold ≤ b.bl_threshold := by
  unfold _dsi_panel_binned_bl_cmp to_int
  split <;> omega

theorem list_sort_insert_perm {α : Type} (cmp : α → α → Int) (a : α) (l : List α) :
    (list_sort_insert cmp a l).Perm (a :: l) := by
  induction l with
  | nil => exact List.Perm.refl _
  | cons b rest ih =>
    unfold list_sort_insert
    split
    · exact List.Perm.refl _
    · exact (List.Perm.cons b ih).trans (List.Perm.swap a b rest)

theorem list_sort_perm {α : Type} (cmp : α → α → Int) (l : List α) :
    (list_sort cmp l).Perm l := by
  induction l with
  | nil => exact List.Perm.refl _
  | cons a rest ih =>
    unfold list_sort
    exact (list_sort_insert_perm cmp a _).trans (List.Perm.cons a ih)

theorem list_sort_insert_sorted (a : binned_lp_node) (l : List binned_lp_node)
    (ha : a.bl_threshold < 2147483648) (hl : ∀ x ∈ l, x.bl_threshold < 2147483648)
    (hs : l.Pairwise (fun x y => x.bl_threshold ≤ y.bl_threshold)) :
    (list_sort_insert _dsi_panel_binned_bl_cmp a l).Pairwise
      (fun x y => x.bl_threshold ≤ y.bl_threshold) := by
  induction l with
  | nil => simp [list_sort_insert]
  | cons b rest ih =>
    have hb : b.bl_threshold < 2147483648 := hl b (List.mem_cons_self _ _)
    have hrest : ∀ x ∈ rest, x.bl_threshold < 2147483648 :=
      fun x hx => hl x (List.mem_cons_of_mem _ hx)
    rw [List.pairwise_cons] at hs
    unfold list_sort_insert
    split
    · rename_i hle
      have hab := (binned_bl_cmp_le_iff a b ha hb).mp hle
      rw [List.pairwise_cons, List.pairwise_cons]
      refine ⟨?_, hs.1, hs.2⟩
      intro x hx
      rcases List.mem_cons.mp hx with h1 | h2
      · rw [h1]
        exact hab
      · exact le_trans hab (hs.1 x h2)
    · rename_i hle
      have hba : b.bl_threshold ≤ a.bl_threshold := by
        have := (binned_bl_cmp_le_iff a b ha hb).not.mp hle
        omega
      rw [List.pairwise_cons]
      refine ⟨?_, ih hrest hs.2⟩
      intro x hx
      have hx' := (list_sort_insert_perm _dsi_panel_binned_bl_cmp a rest).mem_iff.mp hx
      rcases List.mem_cons.mp hx' with h1 | h2
      · rw [h1]
        exact hba
      · exact hs.1 x h2

theorem list_sort_sorted (l : List binned_lp_node)
    (hl : ∀ x ∈ l, x.bl_threshold < 2147483648) :
    (list_sort _dsi_panel_binned_bl_cmp l).Pairwise
      (fun x y => x.bl_threshold ≤ y.bl_threshold) := by
  induction l with
  | nil => simp [list_sort]
  | cons a rest ih =>
    have hrest : ∀ x ∈ rest, x.bl_threshold < 2147483648 :=
      fun x hx => hl x (List.mem_cons_of_mem _ hx)
    unfold list_sort
    apply list_sort_insert_sorted a _ (hl a (List.mem_cons_self _ _)) _ (ih hrest)
    intro x hx
    exact hrest x ((list_sort_perm _dsi_panel_binned_bl_cmp rest).mem_iff.mp hx)

theorem parsed_nodes_thresholds (children : List lp_mode_child) :
    ∀ lp_node : Nat, (parsed_nodes children lp_node).map binned_lp_node.bl_threshold
      = children.map (fun c => c.threshold.getD UINT_MAX) := by
  induction children with
  | nil =>
    intro lp_node
    rfl
  | cons c rest ih =>
    intro lp_node
    unfold parsed_nodes
    rw [List.map_cons, List.map_cons, ih]
    congr 1
    unfold _dsi_panel_binned_lp_parse
    simp only []
    cases c.threshold <;> by_cases hrc : c.cmd_rc ≠ 0 <;> simp [hrc]

theorem register_parse_failure_ne_zero (children : List lp_mode_child)
    (bl : dsi_backlight_config) (hfail : ∃ c ∈ children, c.cmd_rc ≠ 0) :
    (dsi_panel_binned_lp_register true (some children) bl).1 ≠ 0 := by
  unfold dsi_panel_binned_lp_register
  simp only [Bool.not_true, Bool.false_eq_true, if_false]
  by_cases hn : children.length = 0 ∨ children.length > MAX_BINNED_BL_MODES
  · rw [if_pos hn]
    simp [ENOTSUPP]
  · rw [if_neg hn]
    obtain ⟨e, he⟩ := binned_lp_parse_loop_parse_failure children hfail 0 [] (-ENOTSUPP)
    rw [he]
    exact binned_lp_parse_loop_error_ne_zero children 0 [] (-ENOTSUPP) e he

/-- What a successful `dsi_panel_binned_lp_register` leaves: every child
parsed, between one and nine of them, and the table `list_sort` makes of the
parsed nodes. -/
theorem dsi_panel_binned_lp_register_success (kzalloc_ok : Bool)
    (children : List lp_mode_child) (bl : dsi_backlight_config)
    (hok : (dsi_panel_binned_lp_register kzalloc_ok (some children) bl).1 = 0) :
    1 ≤ children.length ∧ children.length ≤ 9 ∧
    (dsi_panel_binned_lp_register kzalloc_ok (some children) bl).2.priv =
      some { mode_list := list_sort _dsi_panel_binned_bl_cmp (parsed_nodes children 0)
             last_lp_mode := none } := by
  have hkz : kzalloc_ok = true := by
    cases kzalloc_ok with
    | true => rfl
    | false =>
      unfold dsi_panel_binned_lp_register at hok
      simp [ENOMEM] at hok
  subst hkz
  have hall : ∀ c ∈ children, c.cmd_rc = 0 := by
    by_contra hne
    push_neg at hne
    exact register_parse_failure_ne_zero children bl hne hok
  have hacc := dsi_panel_binned_lp_register_accepts_iff children bl hall
  have hlen := hacc.1.mp hok
  refine ⟨hlen.1, hlen.2, ?_⟩
  rw [hacc.2 hlen.1 hlen.2]

/-- C16 (amended): after every successful construction by
`dsi_panel_binned_lp_register` the table holds one node for each declared
profile, at most `MAX_BINNED_BL_MODES = 10` of them, with the declared
thresholds (`UINT_MAX` for a profile declared without one), and when every
profile declares a threshold below `2 ^ 31` the thresholds of the table are
in non-decreasing order; equal thresholds are kept. -/
theorem dsi_panel_binned_lp_register_table (kzalloc_ok : Bool)
    (children : List lp_mode_child) (bl : dsi_backlight_config)
    (hok : (dsi_panel_binned_lp_register kzalloc_ok (some children) bl).1 = 0) :
    ∃ lp_data, (dsi_panel_binned_lp_register kzalloc_ok (some children) bl).2.priv
        = some lp_data ∧
      lp_data.mode_list.length = children.length ∧
      lp_data.mode_list.length ≤ MAX_BINNED_BL_MODES ∧
      (lp_data.mode_list.map binned_lp_node.bl_threshold).Perm
        (children.map (fun c => c.threshold.getD UINT_MAX)) ∧
      ((∀ c ∈ children, ∃ t, c.threshold = some t ∧ t < 2147483648) →
        lp_data.mode_list.Pairwise (fun a b => a.bl_threshold ≤ b.bl_threshold)) := by
  obtain ⟨h1, h9, hpriv⟩ := dsi_panel_binned_lp_register_success kzalloc_ok children bl hok
  have hperm := list_sort_perm _dsi_panel_binned_bl_cmp (parsed_nodes children 0)
  have hthr := parsed_nodes_thresholds children 0
  have hlen : (list_sort _dsi_panel_binned_bl_cmp (parsed_nodes children 0)).length
      = children.length := by
    rw [hperm.length_eq, ← List.length_map (parsed_nodes children 0) binned_lp_node.bl_threshold,
      hthr, List.length_map]
  refine ⟨_, hpriv, hlen, ?_, ?_, ?_⟩
  · rw [hlen]
    have h10 : MAX_BINNED_BL_MODES = 10 := rfl
    omega
  · rw [← hthr]
    exact hperm.map _
  · intro hall
    apply list_sort_sorted
    intro x hx
    have hx' : x.bl_threshold ∈ (parsed_nodes children 0).map binned_lp_node.bl_threshold :=
      List.mem_map_of_mem _ hx
    rw [hthr, List.mem_map] at hx'
    obtain ⟨c, hc, hcx⟩ := hx'
    obtain ⟨t, ht, hlt⟩ := hall c hc
    rw [ht] at hcx
    simp only [Option.getD_some] at hcx
    omega

/-- C16, witness: the declared profiles with thresholds `150` and `50`. -/
theorem dsi_panel_binned_lp_register_table_witness :
    (dsi_panel_binned_lp_register true
      (some [example_child (some 150) "medium" 2, example_child (some 50) "dim" 1])
      (example_config 0 4095 255)).1 = 0 ∧
    ∃ lp_data, (dsi_panel_binned_lp_register true
        (some [example_child (some 150) "medium" 2, example_child (some 50) "dim" 1])
        (example_config 0 4095 255)).2.priv = some lp_data ∧
      lp_data.mode_list.length
        = [example_child (some 150) "medium" 2, example_child (some 50) "dim" 1].length ∧
      lp_data.mode_list.length ≤ MAX_BINNED_BL_MODES ∧
      (lp_data.mode_list.map binned_lp_node.bl_threshold).Perm
        ([example_child (some 150) "medium" 2, example_child (some 50) "dim" 1].map
          (fun c => c.threshold.getD UINT_MAX)) ∧
      ((∀ c ∈ [example_child (some 150) "medium" 2, example_child (some 50) "dim" 1],
          ∃ t, c.threshold = some t ∧ t < 2147483648) →
        lp_data.mode_list.Pairwise (fun a b => a.bl_threshold ≤ b.bl_threshold)) :=
  ⟨by decide,
    dsi_panel_binned_lp_register_table true
      [example_child (some 150) "medium" 2, example_child (some 50) "dim" 1]
      (example_config 0 4095 255) (by decide)⟩

/-- C16 as stated fails: two declared profiles with the same threshold `50`
are accepted, and the table holds both: its thresholds `[50, 50]` are not
strictly increasing. -/
theorem dsi_panel_binned_lp_register_table_counterexample :
    (dsi_panel_binned_lp_register true
      (some [example_child (some 50) "dim" 1, example_child (some 50) "dim2" 2])
      (example_config 0 4095 255)).1 = 0 ∧
    ((dsi_panel_binned_lp_register true
        (some [example_child (some 50) "dim" 1, example_child (some 50) "dim2" 2])
        (example_config 0 4095 255)).2.priv.map
      (fun lp_data => lp_data.mode_list.map binned_lp_node.bl_threshold)) = some [50, 50] ∧
    ¬ [50, 50].Pairwise (fun a b : Nat => a < b) := by
  decide

/-! ## Level scaler: the reference formula -/

theorem round_half_up_nat (p d : Nat) (hd : 0 < d) : (2 * p + d) / (2 * d) = (p + d / 2) / d := by
  apply Nat.div_eq_of_lt_le
  · have h1 := Nat.div_mul_le_self (p + d / 2) d
    have e1 : (p + d / 2) / d * (2 * d) = 2 * ((p + d / 2) / d * d) := by ring
    rw [e1]
    omega
  · have h2 := Nat.lt_div_mul_add (a := p + d / 2) hd
    have e2 : ((p + d / 2) / d + 1) * (2 * d) = 2 * ((p + d / 2) / d * d) + 2 * d := by ring
    rw [e2]
    omega

/-- `roundToNearest` of a quotient of natural numbers is the quotient
`DIV_ROUND_CLOSEST` computes. -/
theorem roundToNearest_div (p d : Nat) (hd : 0 < d) :
    roundToNearest (((p : ℤ) : ℚ) / (((d : ℤ) : ℤ) : ℚ)) = (((p + d / 2) / d : Nat) : ℤ) := by
  unfold roundToNearest
  have hd' : ((d : ℤ) : ℚ) ≠ 0 := by
    have : (d : ℤ) ≠ 0 := by omega
    exact_mod_cast this
  have e : ((p : ℤ) : ℚ) / ((d : ℤ) : ℚ) + 1 / 2
      = (((2 * p + d : Nat) : ℤ) : ℚ) / (((2 * d : Nat) : ℕ) : ℚ) := by
    push_cast
    field_simp
    ring
  rw [e, Rat.floor_intCast_div_natCast, ← Int.natCast_div, round_half_up_nat p d hd]

/-- The reference formula is `level_formula` when the device range is not
empty and the UI range is above `1`. -/
theorem computeLevel_reference_eq (k : bl_scale_consts) (bl : dsi_backlight_config) (b : Nat)
    (hmin : effective_min bl ≤ bl.bl_max_level) (hui : 1 < bl.brightness_max_level)
    (hb0 : 0 < b) :
    computeLevel_reference k bl b = (level_formula k bl b : ℤ) := by
  unfold computeLevel_reference level_formula
  simp only []
  have hs : b * bl.bl_scale / k.MAX_BL_SCALE_LEVEL * bl.bl_scale_sv / k.MAX_SV_BL_SCALE_LEVEL
      = scaled_brightness k bl b := rfl
  have hemin : (if bl.bl_min_level ≠ 0 then (bl.bl_min_level : ℤ) else 1)
      = ((effective_min bl : Nat) : ℤ) := by
    unfold effective_min
    split <;> simp
  rw [hs, hemin, if_neg (by omega : ¬ b = 0)]
  by_cases h1 : 1 < scaled_brightness k bl b
  · rw [if_pos h1, if_pos h1]
    have e1 : ((scaled_brightness k bl b : ℤ) - 1) * ((bl.bl_max_level : ℤ) - (effective_min bl : ℤ))
        = (((scaled_brightness k bl b - 1) * (bl.bl_max_level - effective_min bl) : Nat) : ℤ) := by
      rw [Nat.cast_mul, Nat.cast_sub (le_of_lt h1), Nat.cast_sub hmin]
      simp
    have e2 : (bl.brightness_max_level : ℤ) - 1 = ((bl.brightness_max_level - 1 : Nat) : ℤ) := by
      omega
    rw [e1, e2, roundToNearest_div _ _ (by omega)]
    push_cast
    rfl
  · rw [if_neg h1, if_neg h1]

/-- Nothing wraps around at a brightness within the UI range when `no_wrap`
holds. -/
theorem level_fits_of_no_wrap (k : bl_scale_consts) (bl : dsi_backlight_config) (b : Nat)
    (hw : no_wrap k bl)
    (hs : bl.bl_scale ≤ k.MAX_BL_SCALE_LEVEL) (hsv : bl.bl_scale_sv ≤ k.MAX_SV_BL_SCALE_LEVEL)
    (hmin : effective_min bl ≤ bl.bl_max_level)
    (hb0 : 0 < b) (hb : b ≤ bl.brightness_max_level) : level_fits k bl b := by
  have ht : scaled_brightness k bl b ≤ b := scaled_brightness_le k bl b hs hsv
  have hprod : (scaled_brightness k bl b - 1) * (bl.bl_max_level - effective_min bl)
      ≤ (bl.brightness_max_level - 1) * (bl.bl_max_level - effective_min bl) :=
    Nat.mul_le_mul_right _ (by omega)
  have hmax := hw.1.2.2.2.2.1
  have hov := hw.2
  unfold level_fits
  refine ⟨by omega, ?_⟩
  by_cases hd : bl.brightness_max_level - 1 = 0
  · rw [hd, Nat.div_zero]
    omega
  · have hq := rounded_quotient_le (scaled_brightness k bl b - 1)
      (bl.bl_max_level - effective_min bl) (bl.brightness_max_level - 1) (by omega) (by omega)
    have hR := Nat.sub_add_cancel hmin
    generalize ((scaled_brightness k bl b - 1) * (bl.bl_max_level - effective_min bl) +
      (bl.brightness_max_level - 1) / 2) / (bl.brightness_max_level - 1) = q at hq ⊢
    generalize bl.bl_max_level - effective_min bl = R at hq hR
    omega

/-- The value of `dsi_backlight_calculate` at a brightness where nothing
wraps around. -/
theorem calculate_eq_formula_of_fits (k : bl_scale_consts) (bl : dsi_backlight_config)
    (b : Nat) (hw : well_typed k bl)
    (hs : bl.bl_scale ≤ k.MAX_BL_SCALE_LEVEL) (hsv : bl.bl_scale_sv ≤ k.MAX_SV_BL_SCALE_LEVEL)
    (hmin : effective_min bl ≤ bl.bl_max_level) (hui : 1 < bl.brightness_max_level)
    (hb0 : 0 < b) (hb31 : b < 2147483648) (hfit : level_fits k bl b) :
    dsi_backlight_calculate k bl (b : Int) = some (level_formula k bl b) := by
  obtain ⟨hk1, hk1', hk2, hk2', hmax, hui32⟩ := hw
  obtain ⟨hfit1, hfit2⟩ := hfit
  have ht1 : b * bl.bl_scale / k.MAX_BL_SCALE_LEVEL ≤ b := mul_div_le_self _ _ _ hs
  have ht : scaled_brightness k bl b ≤ b := scaled_brightness_le k bl b hs hsv
  have e1 : mult_frac (b : Int) bl.bl_scale (k.MAX_BL_SCALE_LEVEL : Int)
      = b * bl.bl_scale / k.MAX_BL_SCALE_LEVEL :=
    mult_frac_eq b _ _ hk1 hk1' hs hb31
  have e2 : mult_frac ((b * bl.bl_scale / k.MAX_BL_SCALE_LEVEL : Nat) : Int) bl.bl_scale_sv
      (k.MAX_SV_BL_SCALE_LEVEL : Int) = scaled_brightness k bl b :=
    mult_frac_eq _ _ _ hk2 hk2' hsv (by omega)
  have hb' : (b : Int) ≠ 0 := by omega
  have hemin : (if bl.bl_min_level ≠ 0 then bl.bl_min_level else 1) = effective_min bl := rfl
  unfold dsi_backlight_calculate
  simp only []
  rw [if_pos hb', e1, to_int_natCast (b * bl.bl_scale / k.MAX_BL_SCALE_LEVEL) (by omega), e2,
    to_int_natCast (scaled_brightness k bl b) (by omega), hemin]
  unfold level_formula
  rw [if_neg (by omega : ¬ b = 0)]
  have hm := to_int_modEq ((effective_min bl : Nat) : Int)
  by_cases h1 : 1 < scaled_brightness k bl b
  · have h1' : ((scaled_brightness k bl b : Nat) : Int) > 1 := by omega
    rw [if_pos h1', if_pos h1]
    have hd : to_u32 ((bl.brightness_max_level : Int) - 1) = bl.brightness_max_level - 1 := by
      have : ((bl.brightness_max_level : Int) - 1) = ((bl.brightness_max_level - 1 : Nat) : Int) := by
        omega
      rw [this, to_u32_natCast _ (by omega)]
    have hd0 : bl.brightness_max_level - 1 ≠ 0 := by omega
    have hx : to_u32 (to_int ((((scaled_brightness k bl b : Nat) : Int) - 1) *
        to_int ((bl.bl_max_level : Int) - to_int ((effective_min bl : Nat) : Int))))
        = (scaled_brightness k bl b - 1) * (bl.bl_max_level - effective_min bl) := by
      apply to_u32_of_modEq _ (by omega)
      refine (to_int_modEq _).trans ?_
      have hr : to_int ((bl.bl_max_level : Int) - to_int ((effective_min bl : Nat) : Int))
          ≡ ((bl.bl_max_level - effective_min bl : Nat) : Int) [ZMOD 4294967296] := by
        refine (to_int_modEq _).trans ?_
        rw [Nat.cast_sub hmin]
        exact Int.ModEq.sub (Int.ModEq.refl _) hm
      have hl : ((scaled_brightness k bl b : Nat) : Int) - 1
          = ((scaled_brightness k bl b - 1 : Nat) : Int) := by omega
      rw [hl, Nat.cast_mul]
      exact Int.ModEq.mul (Int.ModEq.refl _) hr
    unfold DIV_ROUND_CLOSEST
    rw [hd, if_neg hd0, hx, ← Nat.cast_add, to_u32_natCast _ hfit1]
    simp only []
    refine congrArg some ?_
    apply to_u32_of_modEq _ hfit2
    rw [Nat.cast_add, add_comm]
    exact Int.ModEq.add hm (to_int_modEq _)
  · have h1' : ¬ ((scaled_brightness k bl b : Nat) : Int) > 1 := by omega
    rw [if_neg h1', if_neg h1]
    refine congrArg some ?_
    apply to_u32_of_modEq _ (by omega)
    simpa using hm

/-- C17 (amended): for every well-typed config with scale factors at most
their full scale, a device range that is not empty and `brightness_max_level
> 1`, and every `int` brightness `b > 0` at which nothing wraps around
(`level_fits`, which holds for every `b ≤ brightness_max_level` when
`bl_max_level` and `brightness_max_level` are at most `65535`): each
`mult_frac` step equals the truncated product-quotient, and
`dsi_backlight_calculate` returns the value of the reference formula.  With
`brightness_max_level = 255`, `bl_min_level = 0`, `bl_max_level = 4095` and
full-scale factors, brightness `128` gives `2048`. -/
theorem dsi_backlight_calculate_reference (k : bl_scale_consts) (bl : dsi_backlight_config)
    (b : Nat) (hw : well_typed k bl)
    (hs : bl.bl_scale ≤ k.MAX_BL_SCALE_LEVEL) (hsv : bl.bl_scale_sv ≤ k.MAX_SV_BL_SCALE_LEVEL)
    (hmin : effective_min bl ≤ bl.bl_max_level) (hui : 1 < bl.brightness_max_level)
    (hb0 : 0 < b) (hb31 : b < 2147483648) (hfit : level_fits k bl b) :
    mult_frac (b : Int) bl.bl_scale (k.MAX_BL_SCALE_LEVEL : Int)
      = b * bl.bl_scale / k.MAX_BL_SCALE_LEVEL ∧
    mult_frac ((b * bl.bl_scale / k.MAX_BL_SCALE_LEVEL : Nat) : Int) bl.bl_scale_sv
      (k.MAX_SV_BL_SCALE_LEVEL : Int)
      = b * bl.bl_scale / k.MAX_BL_SCALE_LEVEL * bl.bl_scale_sv / k.MAX_SV_BL_SCALE_LEVEL ∧
    (∃ lvl, dsi_backlight_calculate k bl (b : Int) = some lvl ∧
      (lvl : ℤ) = computeLevel_reference k bl b) ∧
    dsi_backlight_calculate example_consts (example_config 0 4095 255) 128 = some 2048 := by
  have ht1 : b * bl.bl_scale / k.MAX_BL_SCALE_LEVEL ≤ b := mul_div_le_self _ _ _ hs
  refine ⟨mult_frac_eq b _ _ hw.1 hw.2.1 hs hb31,
    mult_frac_eq _ _ _ hw.2.2.1 hw.2.2.2.1 hsv (by omega), ?_, by decide⟩
  exact ⟨level_formula k bl b,
    calculate_eq_formula_of_fits k bl b hw hs hsv hmin hui hb0 hb31 hfit,
    (computeLevel_reference_eq k bl b hmin hui hb0).symm⟩

/-- C17, witness: limits `0 .. 4095`, UI range `255`, brightness `128`: the
reference formula gives `2048`. -/
theorem dsi_backlight_calculate_reference_witness :
    well_typed example_consts (example_config 0 4095 255) ∧
    level_fits example_consts (example_config 0 4095 255) 128 ∧
    computeLevel_reference example_consts (example_config 0 4095 255) 128 = 2048 :=
  ⟨by decide, by decide,
    by
      obtain ⟨lvl, hl, href⟩ :=
        (dsi_backlight_calculate_reference example_consts (example_config 0 4095 255) 128
          (by decide) (by decide) (by decide) (by decide) (by decide) (by decide) (by decide)
          (by decide)).2.2.1
      have h2048 : dsi_backlight_calculate example_consts (example_config 0 4095 255)
          ((128 : Nat) : Int) = some 2048 := by decide
      rw [h2048] at hl
      rw [← href, ← Option.some.inj hl]
      rfl⟩

/-- C17 as stated fails: with `bl_min_level = bl_max_level = 0` and UI range
`255` (a non-negative config with `maxUiLevel > 1`), brightness `129` gives
the scaled value `129`, the reference formula gives `1 + roundToNearest (128
* (0 - 1) / 254) = 0`, and the code returns `16909321`. -/
theorem dsi_backlight_calculate_reference_counterexample :
    1 < (example_config 0 0 255).brightness_max_level ∧
    dsi_backlight_calculate example_consts (example_config 0 0 255) 129 = some 16909321 ∧
    computeLevel_reference example_consts (example_config 0 0 255) 129 = 0 ∧
    ((16909321 : Nat) : ℤ) ≠ 0 := by
  refine ⟨by decide, by decide, ?_, by decide⟩
  unfold computeLevel_reference roundToNearest
  simp only [example_config, example_consts]
  norm_num

/-- The other conditions of the amended C17 are needed as well.  With limits
`0 .. 4294967295` and UI range `3`, brightness `3` wraps around and gives
`2147483647` where the reference formula gives `4294967295`.  With the scale
factor `2 ^ 31`, above its full scale `1024`, limits `0 .. 1000` and UI range
`4194305`, the product in `mult_frac` wraps around although `level_fits`
holds: brightness `2` gives `1` where the reference formula gives `1000`. -/
theorem calculate_reference_needs_conditions :
    dsi_backlight_calculate example_consts (example_config 0 4294967295 3) 3
      = some 2147483647 ∧
    computeLevel_reference example_consts (example_config 0 4294967295 3) 3 = 4294967295 ∧
    level_fits example_consts
      { example_config 0 1000 4194305 with bl_scale := 2147483648 } 2 ∧
    dsi_backlight_calculate example_consts
      { example_config 0 1000 4194305 with bl_scale := 2147483648 } 2 = some 1 ∧
    computeLevel_reference example_consts
      { example_config 0 1000 4194305 with bl_scale := 2147483648 } 2 = 1000 := by
  refine ⟨by decide, ?_, by decide, by decide, ?_⟩
  · rw [computeLevel_reference_eq _ _ _ (by decide) (by decide) (by decide)]
    decide
  · rw [computeLevel_reference_eq _ _ _ (by decide) (by decide) (by decide)]
    decide

end DsiBacklight
